import Mathlib

/-!
# Verification of the paperless-hooks reconciliation and dispatch engine

Shallow embedding of `src/paperless_hooks.py` and the parts of
`src/paperless_api.py` it uses.  Pure Python functions become Lean functions;
the stateful remote workflow store (the Paperless REST API) is modelled as an
explicit `RemoteStore` value threaded through the operations, with an `ApiEnv`
record injecting the transport failures (`requests` exceptions surfaced as
`PaperlessAPIError`) that the error-handling claims quantify over.  Python
exceptions are modelled with `Except PyErr`.
-/

/-- Python exception values relevant to this code base.  `valueError` covers
`ValueError` (raised by `int()` and by pydantic attribute assignment),
`indexError` covers `IndexError` (negative list indexing), `apiError` covers
`PaperlessAPIError` from `paperless_api._request`, and `userError` stands for
an arbitrary exception raised by a user callback. -/
inductive PyErr where
  | valueError (msg : String)
  | indexError (msg : String)
  | apiError (msg : String)
  | userError (msg : String)
deriving Repr, DecidableEq

deriving instance DecidableEq for Except

/-- A dynamically typed Python value, as stored in a handler's filter dict and
assigned onto pydantic trigger fields (assignment is not validated, so any of
these can land in any field). -/
inductive PyVal where
  | none
  | str (s : String)
  | int (n : Int)
  | bool (b : Bool)
  | intList (l : List Int)
deriving Repr, DecidableEq

/-- Digit value of a character, `none` for non-digits. -/
def digitVal (c : Char) : Option Nat :=
  if '0' ≤ c ∧ c ≤ '9' then some (c.toNat - '0'.toNat) else none

def parseDigitsAux : Nat → List Char → Option Nat
  | acc, [] => some acc
  | acc, c :: cs =>
    match digitVal c with
    | some d => parseDigitsAux (acc * 10 + d) cs
    | none => none

/-- Parse a non-empty all-digit character list as a natural number. -/
def parseDigits (cs : List Char) : Option Nat :=
  if cs.isEmpty then none else parseDigitsAux 0 cs

/-- Python `str.split(sep)` for a single-character separator, on char lists:
splits at every occurrence of `sep`, keeping empty parts. -/
def pySplitChar (sep : Char) : List Char → List (List Char)
  | [] => [[]]
  | c :: cs =>
    match pySplitChar sep cs with
    | [] => [[]]
    | g :: gs => if c = sep then [] :: g :: gs else (c :: g) :: gs

/-- Python `str.split(sep)` for a single-character separator. -/
def pySplit (s : String) (sep : Char) : List String :=
  (pySplitChar sep s.data).map (fun cs => String.mk cs)

/-- Python whitespace characters stripped by `int()`. -/
def isPyWhitespace (c : Char) : Bool :=
  c = ' ' ∨ c = '\t' ∨ c = '\n' ∨ c = '\r'

/-- Strip leading and trailing whitespace from a character list. -/
def pyStripChars (cs : List Char) : List Char :=
  ((cs.dropWhile isPyWhitespace).reverse.dropWhile isPyWhitespace).reverse

/-- Core of Python `int(str)`: optional sign followed by digits.
(Underscore digit separators and non-ASCII digits are not modelled; no input
in this development uses them.) -/
def pyIntCore : List Char → Option Int
  | '-' :: rest => (parseDigits rest).map (fun n => -(n : Int))
  | '+' :: rest => (parseDigits rest).map (fun n => (n : Int))
  | cs => (parseDigits cs).map (fun n => (n : Int))

/-- Python `int(s)`: raises `ValueError` when `s` is not an integer literal. -/
def pyInt (s : String) : Except PyErr Int :=
  match pyIntCore (pyStripChars s.data) with
  | some i => .ok i
  | none => .error (.valueError ("invalid literal for int with base 10: " ++ s))

/-- Python negative index `parts[-2]`: raises `IndexError` when the list has
fewer than two elements. -/
def pyGetNeg2 (parts : List String) : Except PyErr String :=
  if h : 2 ≤ parts.length then
    .ok (parts.get ⟨parts.length - 2, by omega⟩)
  else
    .error (.indexError "list index out of range")

/-- Python `str.rstrip("/")`: drop every trailing slash. -/
def pyRstripSlash (s : String) : String :=
  String.mk (s.data.reverse.dropWhile (fun c => c = '/')).reverse

/-- `paperless_api.TriggerType` (an `IntEnum`). -/
inductive TriggerType where
  | CONSUMPTION_STARTED
  | DOCUMENT_ADDED
  | DOCUMENT_UPDATED
  | SCHEDULED
deriving Repr, DecidableEq

/-- The numeric value of each `TriggerType` enum member. -/
def TriggerType.enumVal : TriggerType → Int
  | .CONSUMPTION_STARTED => 1
  | .DOCUMENT_ADDED => 2
  | .DOCUMENT_UPDATED => 3
  | .SCHEDULED => 4

/-- `paperless_api.WorkflowTrigger`.  Every pydantic field is stored as a
dynamically typed `PyVal`, because `PaperlessHooks.init` assigns filter values
onto these fields with `setattr`, which pydantic (without
`validate_assignment`) performs without type validation.  Field order and
defaults follow the source declaration. -/
structure WorkflowTrigger where
  id : PyVal := .none
  type : PyVal
  sources : PyVal := .intList []
  filter_filename : PyVal := .none
  filter_path : PyVal := .none
  filter_mailrule : PyVal := .none
  matching_algorithm : PyVal := .int 0
  filter_match : PyVal := .none
  is_insensitive : PyVal := .bool true
  filter_has_tags : PyVal := .intList []
  filter_has_all_tags : PyVal := .intList []
  filter_has_not_tags : PyVal := .intList []
  filter_custom_field_query : PyVal := .none
  filter_has_not_correspondents : PyVal := .intList []
  filter_has_not_document_types : PyVal := .intList []
  filter_has_not_storage_paths : PyVal := .intList []
  filter_has_correspondent : PyVal := .none
  filter_has_document_type : PyVal := .none
  filter_has_storage_path : PyVal := .none
deriving Repr, DecidableEq

/-- The pydantic field names of `WorkflowTrigger`, in declaration order.  The
source field is named `match`; that is a reserved word in Lean, so the Lean
field is `filter_match` while the attribute-name string remains `"match"`. -/
def triggerFieldNames : List String :=
  ["id", "type", "sources", "filter_filename", "filter_path", "filter_mailrule",
   "matching_algorithm", "match", "is_insensitive", "filter_has_tags",
   "filter_has_all_tags", "filter_has_not_tags", "filter_custom_field_query",
   "filter_has_not_correspondents", "filter_has_not_document_types",
   "filter_has_not_storage_paths", "filter_has_correspondent",
   "filter_has_document_type", "filter_has_storage_path"]

/-- Pydantic `setattr` on a `WorkflowTrigger`: assigning to a declared field
stores the value unvalidated; assigning to an unknown attribute raises
`ValueError` (modelled by `none`). -/
def triggerSetattr (t : WorkflowTrigger) (k : String) (v : PyVal) :
    Option WorkflowTrigger :=
  if k = "id" then some { t with id := v }
  else if k = "type" then some { t with type := v }
  else if k = "sources" then some { t with sources := v }
  else if k = "filter_filename" then some { t with filter_filename := v }
  else if k = "filter_path" then some { t with filter_path := v }
  else if k = "filter_mailrule" then some { t with filter_mailrule := v }
  else if k = "matching_algorithm" then some { t with matching_algorithm := v }
  else if k = "match" then some { t with filter_match := v }
  else if k = "is_insensitive" then some { t with is_insensitive := v }
  else if k = "filter_has_tags" then some { t with filter_has_tags := v }
  else if k = "filter_has_all_tags" then some { t with filter_has_all_tags := v }
  else if k = "filter_has_not_tags" then some { t with filter_has_not_tags := v }
  else if k = "filter_custom_field_query" then some { t with filter_custom_field_query := v }
  else if k = "filter_has_not_correspondents" then some { t with filter_has_not_correspondents := v }
  else if k = "filter_has_not_document_types" then some { t with filter_has_not_document_types := v }
  else if k = "filter_has_not_storage_paths" then some { t with filter_has_not_storage_paths := v }
  else if k = "filter_has_correspondent" then some { t with filter_has_correspondent := v }
  else if k = "filter_has_document_type" then some { t with filter_has_document_type := v }
  else if k = "filter_has_storage_path" then some { t with filter_has_storage_path := v }
  else none

/-- The `for filter_name, filter_value in handler.filters.items(): setattr(...)`
loop of `PaperlessHooks.init`, propagating the `ValueError` pydantic raises on
an unknown attribute name. -/
def applyFilters : WorkflowTrigger → List (String × PyVal) →
    Except PyErr WorkflowTrigger
  | t, [] => .ok t
  | t, (k, v) :: rest =>
    match triggerSetattr t k v with
    | some t2 => applyFilters t2 rest
    | none => .error (.valueError ("WorkflowTrigger object has no field " ++ k))

/-- `paperless_api.WebhookConfig`.  `params` is the webhook parameter dict
(string keys and values in this code base). -/
structure WebhookConfig where
  id : Option Nat := none
  url : String
  use_params : Bool := false
  as_json : Bool := true
  params : List (String × String) := []
  body : String := ""
  headers : Option (List (String × String)) := none
  include_document : Bool := true
deriving Repr, DecidableEq

/-- `paperless_api.PlaceholderTemplates`: the fixed placeholder schema, each
field defaulting to its literal template marker. -/
structure PlaceholderTemplates where
  correspondent : String := "\x7b\x7bcorrespondent\x7d\x7d"
  document_type : String := "\x7b\x7bdocument_type\x7d\x7d"
  owner_username : String := "\x7b\x7bowner_username\x7d\x7d"
  added : String := "\x7b\x7badded\x7d\x7d"
  added_year : String := "\x7b\x7badded_year\x7d\x7d"
  added_year_short : String := "\x7b\x7badded_year_short\x7d\x7d"
  added_month : String := "\x7b\x7badded_month\x7d\x7d"
  added_month_name : String := "\x7b\x7badded_month_name\x7d\x7d"
  added_month_name_short : String := "\x7b\x7badded_month_name_short\x7d\x7d"
  added_day : String := "\x7b\x7badded_day\x7d\x7d"
  added_time : String := "\x7b\x7badded_time\x7d\x7d"
  original_filename : String := "\x7b\x7boriginal_filename\x7d\x7d"
  filename : String := "\x7b\x7bfilename\x7d\x7d"
  doc_title : String := "\x7b\x7bdoc_title\x7d\x7d"
  created : String := "\x7b\x7bcreated\x7d\x7d"
  created_year : String := "\x7b\x7bcreated_year\x7d\x7d"
  created_year_short : String := "\x7b\x7bcreated_year_short\x7d\x7d"
  created_month : String := "\x7b\x7bcreated_month\x7d\x7d"
  created_month_name : String := "\x7b\x7bcreated_month_name\x7d\x7d"
  created_month_name_short : String := "\x7b\x7bcreated_month_name_short\x7d\x7d"
  created_day : String := "\x7b\x7bcreated_day\x7d\x7d"
  created_time : String := "\x7b\x7bcreated_time\x7d\x7d"
  doc_url : String := "\x7b\x7bdoc_url\x7d\x7d"
deriving Repr, DecidableEq

/-- `PlaceholderTemplates.model_dump()`: the field dict in declaration order. -/
def PlaceholderTemplates.model_dump (t : PlaceholderTemplates) :
    List (String × String) :=
  [("correspondent", t.correspondent), ("document_type", t.document_type),
   ("owner_username", t.owner_username), ("added", t.added),
   ("added_year", t.added_year), ("added_year_short", t.added_year_short),
   ("added_month", t.added_month), ("added_month_name", t.added_month_name),
   ("added_month_name_short", t.added_month_name_short),
   ("added_day", t.added_day), ("added_time", t.added_time),
   ("original_filename", t.original_filename), ("filename", t.filename),
   ("doc_title", t.doc_title), ("created", t.created),
   ("created_year", t.created_year), ("created_year_short", t.created_year_short),
   ("created_month", t.created_month), ("created_month_name", t.created_month_name),
   ("created_month_name_short", t.created_month_name_short),
   ("created_day", t.created_day), ("created_time", t.created_time),
   ("doc_url", t.doc_url)]

/-- The pydantic field names of `PlaceholderTemplates`. -/
def placeholderFieldNames : List String :=
  ["correspondent", "document_type", "owner_username", "added", "added_year",
   "added_year_short", "added_month", "added_month_name",
   "added_month_name_short", "added_day", "added_time", "original_filename",
   "filename", "doc_title", "created", "created_year", "created_year_short",
   "created_month", "created_month_name", "created_month_name_short",
   "created_day", "created_time", "doc_url"]

/-- First-match lookup in a string dict (Python dict keys are unique, so first
match is the only match). -/
def lookupStr (j : List (String × String)) (k : String) : Option String :=
  (j.find? (fun kv => kv.1 = k)).map (fun kv => kv.2)

/-- `PlaceholderTemplates(**json_data)`: pydantic construction from a keyword
dict with `extra="ignore"` — unknown keys are ignored and each missing field
takes its declared default.  (Values in the delivered webhook payload are
strings, matching every field's type, so construction cannot fail.) -/
def PlaceholderTemplates.ofJson (j : List (String × String)) :
    PlaceholderTemplates :=
  let d : PlaceholderTemplates := {}
  { correspondent := (lookupStr j "correspondent").getD d.correspondent,
    document_type := (lookupStr j "document_type").getD d.document_type,
    owner_username := (lookupStr j "owner_username").getD d.owner_username,
    added := (lookupStr j "added").getD d.added,
    added_year := (lookupStr j "added_year").getD d.added_year,
    added_year_short := (lookupStr j "added_year_short").getD d.added_year_short,
    added_month := (lookupStr j "added_month").getD d.added_month,
    added_month_name := (lookupStr j "added_month_name").getD d.added_month_name,
    added_month_name_short := (lookupStr j "added_month_name_short").getD d.added_month_name_short,
    added_day := (lookupStr j "added_day").getD d.added_day,
    added_time := (lookupStr j "added_time").getD d.added_time,
    original_filename := (lookupStr j "original_filename").getD d.original_filename,
    filename := (lookupStr j "filename").getD d.filename,
    doc_title := (lookupStr j "doc_title").getD d.doc_title,
    created := (lookupStr j "created").getD d.created,
    created_year := (lookupStr j "created_year").getD d.created_year,
    created_year_short := (lookupStr j "created_year_short").getD d.created_year_short,
    created_month := (lookupStr j "created_month").getD d.created_month,
    created_month_name := (lookupStr j "created_month_name").getD d.created_month_name,
    created_month_name_short := (lookupStr j "created_month_name_short").getD d.created_month_name_short,
    created_day := (lookupStr j "created_day").getD d.created_day,
    created_time := (lookupStr j "created_time").getD d.created_time,
    doc_url := (lookupStr j "doc_url").getD d.doc_url }

/-- `paperless_api.WorkflowAction`. -/
structure WorkflowAction where
  id : Option Nat := none
  type : Int
  assign_title : Option String := none
  assign_tags : List Int := []
  assign_document_type : Option Int := none
  assign_correspondent : Option Int := none
  assign_storage_path : Option Int := none
  assign_owner : Option Int := none
  assign_view_users : List Int := []
  assign_view_groups : List Int := []
  assign_change_users : List Int := []
  assign_change_groups : List Int := []
  assign_custom_fields : List Int := []
  webhook : Option WebhookConfig := none
deriving Repr, DecidableEq

/-- `paperless_api.Workflow`. -/
structure Workflow where
  id : Option Nat := none
  name : String
  order : Int := 0
  enabled : Bool := true
  triggers : List WorkflowTrigger
  actions : List WorkflowAction
deriving Repr, DecidableEq

/-- `paperless_hooks.DocumentAddedEvent`.  The `api` member is the shared REST
client object (only used by the lazy `get_document`/`download_document`
fetches, which perform network calls and are outside the pure payload
contract); the data content is the decoded payload. -/
structure DocumentAddedEvent where
  _payload : PlaceholderTemplates
deriving Repr, DecidableEq

/-- `paperless_hooks.DocumentUpdatedEvent`: a subclass of `DocumentAddedEvent`
with identical shape but a distinct runtime type. -/
structure DocumentUpdatedEvent where
  _payload : PlaceholderTemplates
deriving Repr, DecidableEq

/-- `DocumentAddedEvent.get_document_id`:
`int(self._payload.doc_url.split("/")[-2])`. -/
def DocumentAddedEvent.get_document_id (e : DocumentAddedEvent) :
    Except PyErr Int := do
  let parts := pySplit e._payload.doc_url '/'
  let seg ← pyGetNeg2 parts
  pyInt seg

/-- Same method inherited by `DocumentUpdatedEvent`. -/
def DocumentUpdatedEvent.get_document_id (e : DocumentUpdatedEvent) :
    Except PyErr Int := do
  let parts := pySplit e._payload.doc_url '/'
  let seg ← pyGetNeg2 parts
  pyInt seg

/-- The value passed to a user callback by `_json_handler`: a typed event
context for document-added/updated triggers, the raw decoded payload for
consumption-started and scheduled triggers. -/
inductive EventContext where
  | documentAdded (e : DocumentAddedEvent)
  | documentUpdated (e : DocumentUpdatedEvent)
  | payload (t : PlaceholderTemplates)
deriving Repr, DecidableEq

/-- `paperless_hooks.EventHandler`.  `func` is the user callback, which either
returns normally or raises; `name` is `func.__name__`.  Field order follows
`EventHandler.__init__`. -/
structure EventHandler where
  func : EventContext → Except PyErr Unit
  event_type : TriggerType
  index : Nat := 0
  url : Option String := none
  workflow : Option Workflow := none
  name : String
  filters : List (String × PyVal) := []

/-- The remote Paperless workflow store: the workflows visible through
`/api/workflows/` plus the next server-assigned primary key. -/
structure RemoteStore where
  workflows : List Workflow
  next_id : Nat
deriving Repr, DecidableEq

/-- Names of the workflows currently in the remote store. -/
def storeNames (store : RemoteStore) : List String :=
  store.workflows.map (fun w => w.name)

/-- Transport-failure environment: which REST calls fail with
`PaperlessAPIError` during a run (network errors, non-2xx statuses). -/
structure ApiEnv where
  listFails : Bool
  createFails : String → Bool

/-- One REST call made against the workflow endpoints, for traces. -/
inductive ApiCall where
  | listWorkflows
  | createWorkflow (w : Workflow)
  | deleteWorkflow (path_segment : String)
deriving Repr, DecidableEq

/-- Names of the workflows submitted by creation calls in a trace. -/
def createdNames (calls : List ApiCall) : List String :=
  calls.filterMap (fun c =>
    match c with
    | .createWorkflow w => some w.name
    | _ => none)

/-- `PaperlessAPI.workflows_iter`: one full paginated listing. -/
def PaperlessAPI.workflows_iter (env : ApiEnv) (store : RemoteStore) :
    Except PyErr (List Workflow) :=
  if env.listFails then .error (.apiError "workflows listing failed")
  else .ok store.workflows

/-- `PaperlessAPI.create_workflow`: POST the definition (id excluded); the
server assigns the next primary key and the created workflow is returned. -/
def PaperlessAPI.create_workflow (env : ApiEnv) (store : RemoteStore)
    (w : Workflow) : Except PyErr (RemoteStore × Workflow) :=
  if env.createFails w.name then .error (.apiError "workflow creation failed")
  else
    let created := { w with id := some store.next_id }
    .ok ({ workflows := store.workflows ++ [created],
           next_id := store.next_id + 1 }, created)

/-- `PaperlessAPI.delete_workflow(workflow_id)` sends
`DELETE /api/workflows/{workflow_id}/`.  The argument is interpolated into the
path with an f-string, so what reaches the server is its `str()` rendering.
The server deletes the workflow whose primary key matches a decimal path
segment and answers 404 otherwise, which `raise_for_status` turns into a
`PaperlessAPIError`. -/
def PaperlessAPI.delete_workflow (store : RemoteStore) (path_segment : String) :
    Except PyErr RemoteStore :=
  match parseDigits path_segment.data with
  | some n =>
    if store.workflows.any (fun w => decide (w.id = some n)) then
      .ok { store with
            workflows := store.workflows.filter (fun w => !decide (w.id = some n)) }
    else .error (.apiError "404 Not Found")
  | none => .error (.apiError "404 Not Found")

/-- Pydantic `str()` rendering of an `Option Nat` id field. -/
def pyReprOptNat : Option Nat → String
  | none => "None"
  | some n => toString n

/-- Pydantic `str()` rendering of a Python bool. -/
def pyReprBool (b : Bool) : String :=
  if b then "True" else "False"

/-- Pydantic `repr()` rendering of a dynamically typed field value.  String
quoting is rendered with double quotes instead of Python single quotes; no
claim depends on the quoting character. -/
def PyVal.pyRepr : PyVal → String
  | .none => "None"
  | .str s => "\"" ++ s ++ "\""
  | .int n => toString n
  | .bool b => pyReprBool b
  | .intList l => "[" ++ String.intercalate ", " (l.map toString) ++ "]"

/-- Pydantic `repr()` of a string dict. -/
def pyReprStrDict (l : List (String × String)) : String :=
  "\x7b" ++ String.intercalate ", "
    (l.map (fun kv => "\"" ++ kv.1 ++ "\": \"" ++ kv.2 ++ "\"")) ++ "\x7d"

/-- Pydantic `repr()` of an optional string dict. -/
def pyReprOptStrDict : Option (List (String × String)) → String
  | none => "None"
  | some l => pyReprStrDict l

/-- Pydantic `repr()` of a `WorkflowTrigger` (nested-model rendering inside a
workflow's `str()`). -/
def WorkflowTrigger.pyRepr (t : WorkflowTrigger) : String :=
  "WorkflowTrigger(id=" ++ t.id.pyRepr ++ ", type=" ++ t.type.pyRepr ++
  ", sources=" ++ t.sources.pyRepr ++
  ", filter_filename=" ++ t.filter_filename.pyRepr ++
  ", filter_path=" ++ t.filter_path.pyRepr ++
  ", filter_mailrule=" ++ t.filter_mailrule.pyRepr ++
  ", matching_algorithm=" ++ t.matching_algorithm.pyRepr ++
  ", match=" ++ t.filter_match.pyRepr ++
  ", is_insensitive=" ++ t.is_insensitive.pyRepr ++
  ", filter_has_tags=" ++ t.filter_has_tags.pyRepr ++
  ", filter_has_all_tags=" ++ t.filter_has_all_tags.pyRepr ++
  ", filter_has_not_tags=" ++ t.filter_has_not_tags.pyRepr ++
  ", filter_custom_field_query=" ++ t.filter_custom_field_query.pyRepr ++
  ", filter_has_not_correspondents=" ++ t.filter_has_not_correspondents.pyRepr ++
  ", filter_has_not_document_types=" ++ t.filter_has_not_document_types.pyRepr ++
  ", filter_has_not_storage_paths=" ++ t.filter_has_not_storage_paths.pyRepr ++
  ", filter_has_correspondent=" ++ t.filter_has_correspondent.pyRepr ++
  ", filter_has_document_type=" ++ t.filter_has_document_type.pyRepr ++
  ", filter_has_storage_path=" ++ t.filter_has_storage_path.pyRepr ++ ")"

/-- Pydantic `repr()` of a `WebhookConfig`. -/
def WebhookConfig.pyRepr (c : WebhookConfig) : String :=
  "WebhookConfig(id=" ++ pyReprOptNat c.id ++
  ", url=\"" ++ c.url ++ "\"" ++
  ", use_params=" ++ pyReprBool c.use_params ++
  ", as_json=" ++ pyReprBool c.as_json ++
  ", params=" ++ pyReprStrDict c.params ++
  ", body=\"" ++ c.body ++ "\"" ++
  ", headers=" ++ pyReprOptStrDict c.headers ++
  ", include_document=" ++ pyReprBool c.include_document ++ ")"

/-- Pydantic `repr()` of an optional int field. -/
def pyReprOptInt : Option Int → String
  | none => "None"
  | some n => toString n

/-- Pydantic `repr()` of an int list field. -/
def pyReprIntList (l : List Int) : String :=
  "[" ++ String.intercalate ", " (l.map toString) ++ "]"

/-- Pydantic `repr()` of a `WorkflowAction`. -/
def WorkflowAction.pyRepr (a : WorkflowAction) : String :=
  "WorkflowAction(id=" ++ pyReprOptNat a.id ++
  ", type=" ++ toString a.type ++
  ", assign_title=" ++ (match a.assign_title with
    | none => "None"
    | some s => "\"" ++ s ++ "\"") ++
  ", assign_tags=" ++ pyReprIntList a.assign_tags ++
  ", assign_document_type=" ++ pyReprOptInt a.assign_document_type ++
  ", assign_correspondent=" ++ pyReprOptInt a.assign_correspondent ++
  ", assign_storage_path=" ++ pyReprOptInt a.assign_storage_path ++
  ", assign_owner=" ++ pyReprOptInt a.assign_owner ++
  ", assign_view_users=" ++ pyReprIntList a.assign_view_users ++
  ", assign_view_groups=" ++ pyReprIntList a.assign_view_groups ++
  ", assign_change_users=" ++ pyReprIntList a.assign_change_users ++
  ", assign_change_groups=" ++ pyReprIntList a.assign_change_groups ++
  ", assign_custom_fields=" ++ pyReprIntList a.assign_custom_fields ++
  ", webhook=" ++ (match a.webhook with
    | none => "None"
    | some c => c.pyRepr) ++ ")"

/-- Pydantic v2 `str()` of a `Workflow` model: the space-separated
`field=value` rendering produced by `BaseModel.__str__`, starting with the
`id` field.  This is what an f-string interpolates when a `Workflow` object is
formatted into a URL. -/
def Workflow.pyStr (w : Workflow) : String :=
  "id=" ++ pyReprOptNat w.id ++
  " name=\"" ++ w.name ++ "\"" ++
  " order=" ++ toString w.order ++
  " enabled=" ++ pyReprBool w.enabled ++
  " triggers=[" ++ String.intercalate ", " (w.triggers.map WorkflowTrigger.pyRepr) ++ "]" ++
  " actions=[" ++ String.intercalate ", " (w.actions.map WorkflowAction.pyRepr) ++ "]"

/-- `paperless_hooks.PaperlessHooks` instance state.  `event_handlers` is the
trigger-type-keyed handler registry; the four dict keys are created in
`__init__` and iterated in insertion order
(consumption-started, document-added, document-updated, scheduled).
`_registered_workflows` is the registered-workflow ledger: the values appended
by `_register_workflows` (the `Workflow` models returned by the creation
calls). -/
structure PaperlessHooks where
  paperless_url : String
  paperless_api_key : String
  webhook_base_url : String
  workflow_start_index : Int
  event_handlers : TriggerType → List EventHandler
  _registered_workflows : List Workflow

/-- The dict insertion order of the handler registry keys. -/
def triggerOrder : List TriggerType :=
  [.CONSUMPTION_STARTED, .DOCUMENT_ADDED, .DOCUMENT_UPDATED, .SCHEDULED]

/-- All registered handlers in registry iteration order
(`for handlers in self.event_handlers.values()`). -/
def PaperlessHooks.allHandlers (ph : PaperlessHooks) : List EventHandler :=
  ph.event_handlers .CONSUMPTION_STARTED ++ ph.event_handlers .DOCUMENT_ADDED ++
    ph.event_handlers .DOCUMENT_UPDATED ++ ph.event_handlers .SCHEDULED

/-- `PaperlessHooks.__init__`: both URLs are right-stripped of slashes, the
registry starts with four empty lists and the ledger empty. -/
def PaperlessHooks.new (paperless_url paperless_api_key webhook_base_url : String)
    (workflow_start_index : Int) : PaperlessHooks :=
  { paperless_url := pyRstripSlash paperless_url,
    paperless_api_key := paperless_api_key,
    webhook_base_url := pyRstripSlash webhook_base_url,
    workflow_start_index := workflow_start_index,
    event_handlers := fun _ => [],
    _registered_workflows := [] }

/-- `PaperlessHooks.add_event_handler`: append to the list keyed by the
handler's own event type. -/
def PaperlessHooks.add_event_handler (ph : PaperlessHooks) (handler : EventHandler) :
    PaperlessHooks :=
  { ph with event_handlers := fun tt =>
      if tt = handler.event_type then ph.event_handlers tt ++ [handler]
      else ph.event_handlers tt }

/-- The `consumption_started` decorator applied to a function: constructs
`EventHandler(func, CONSUMPTION_STARTED, filters=filters)` and registers it.
`func_name` is the decorated function's `__name__`.  No validation of any
kind happens here. -/
def PaperlessHooks.consumption_started (ph : PaperlessHooks)
    (filters : Option (List (String × PyVal))) (func_name : String)
    (func : EventContext → Except PyErr Unit) : PaperlessHooks :=
  ph.add_event_handler
    { func := func, event_type := .CONSUMPTION_STARTED, index := 0,
      url := none, workflow := none, name := func_name,
      filters := filters.getD [] }

/-- The `document_added` decorator applied to a function. -/
def PaperlessHooks.document_added (ph : PaperlessHooks)
    (filters : Option (List (String × PyVal))) (func_name : String)
    (func : EventContext → Except PyErr Unit) : PaperlessHooks :=
  ph.add_event_handler
    { func := func, event_type := .DOCUMENT_ADDED, index := 0,
      url := none, workflow := none, name := func_name,
      filters := filters.getD [] }

/-- The `document_updated` decorator applied to a function. -/
def PaperlessHooks.document_updated (ph : PaperlessHooks)
    (filters : Option (List (String × PyVal))) (func_name : String)
    (func : EventContext → Except PyErr Unit) : PaperlessHooks :=
  ph.add_event_handler
    { func := func, event_type := .DOCUMENT_UPDATED, index := 0,
      url := none, workflow := none, name := func_name,
      filters := filters.getD [] }

/-- The `scheduled` decorator applied to a function. -/
def PaperlessHooks.scheduled (ph : PaperlessHooks)
    (filters : Option (List (String × PyVal))) (func_name : String)
    (func : EventContext → Except PyErr Unit) : PaperlessHooks :=
  ph.add_event_handler
    { func := func, event_type := .SCHEDULED, index := 0,
      url := none, workflow := none, name := func_name,
      filters := filters.getD [] }

/-- The per-handler body of the synthesis loop in `PaperlessHooks.init`:
build the webhook URL, a fresh trigger of the dict key's trigger type with the
handler's filters applied by attribute assignment (which raises on an unknown
filter name), the webhook config carrying the full placeholder template, the
type-4 action, and the `"paperless-hooks-"`-prefixed workflow; then set the
handler's `workflow` back-reference and `url`. -/
def synthesizeHandler (ph : PaperlessHooks) (trigger_type : TriggerType)
    (handler : EventHandler) : Except PyErr (EventHandler × Workflow) :=
  match applyFilters { type := .int trigger_type.enumVal } handler.filters with
  | .error e => .error e
  | .ok trigger =>
    let webhook_url := ph.webhook_base_url ++ "/" ++ handler.name
    let webhook_config : WebhookConfig :=
      { url := webhook_url, use_params := true, as_json := true,
        include_document := false,
        params := PlaceholderTemplates.model_dump {} }
    let action : WorkflowAction := { type := 4, webhook := some webhook_config }
    let wf_name := "paperless-hooks-" ++ handler.name
    let workflow : Workflow :=
      { name := wf_name, order := ph.workflow_start_index, enabled := true,
        triggers := [trigger], actions := [action] }
    .ok ({ handler with
           workflow := some workflow,
           url := some ("/" ++ handler.name) }, workflow)

/-- The synthesis loop over one registry entry, in registration order. -/
def synthesizeList (ph : PaperlessHooks) (trigger_type : TriggerType) :
    List EventHandler → Except PyErr (List (EventHandler × Workflow))
  | [] => .ok []
  | h :: rest =>
    match synthesizeHandler ph trigger_type h with
    | .error e => .error e
    | .ok hw =>
      match synthesizeList ph trigger_type rest with
      | .error e => .error e
      | .ok others => .ok (hw :: others)

/-- The `for workflow in workflows:` loop of `_register_workflows`: the
membership test uses the name list fetched once before the loop and never
refreshed; a creation failure is caught and logged, the loop continues.
Returns the final store, the list appended to the ledger (the created
`Workflow` models), and the list of creation calls issued. -/
def registerLoop (env : ApiEnv) (existing_workflows : List String) :
    RemoteStore → List Workflow → RemoteStore × List Workflow × List Workflow
  | store, [] => (store, [], [])
  | store, w :: rest =>
    if w.name ∈ existing_workflows then
      registerLoop env existing_workflows store rest
    else
      match PaperlessAPI.create_workflow env store w with
      | .ok (store2, created_workflow) =>
        let (s3, reg, calls) := registerLoop env existing_workflows store2 rest
        (s3, created_workflow :: reg, w :: calls)
      | .error _ =>
        let (s3, reg, calls) := registerLoop env existing_workflows store rest
        (s3, reg, w :: calls)

/-- `PaperlessHooks._register_workflows`: fetch the remote name list once
(a failure here propagates), then create every submitted workflow whose name
is not in that list. -/
def PaperlessHooks._register_workflows (env : ApiEnv) (store : RemoteStore)
    (workflows : List Workflow) :
    Except PyErr (RemoteStore × List Workflow × List Workflow) :=
  match PaperlessAPI.workflows_iter env store with
  | .error e => .error e
  | .ok existing =>
    let existing_workflows := existing.map (fun m => m.name)
    .ok (registerLoop env existing_workflows store workflows)

/-- `PaperlessHooks._setup_routes`: for every handler whose `url` is truthy,
register `(handler.url, _json_handler)` with the backend.  Returns the
`add_json_endpoint` calls in order: the bound path and the handler captured by
the closure. -/
def PaperlessHooks._setup_routes (ph : PaperlessHooks) :
    List (String × EventHandler) :=
  ph.allHandlers.filterMap (fun h =>
    match h.url with
    | none => none
    | some u => if u = "" then none else some (u, h))

/-- The outcome of a completed `PaperlessHooks.init` run. -/
structure InitResult where
  store : RemoteStore
  hooks : PaperlessHooks
  api_calls : List ApiCall
  routes : List (String × EventHandler)

/-- `PaperlessHooks.init`: synthesize one workflow per handler in registry
order (a `setattr` failure propagates), then — when at least one workflow was
synthesized — reconcile against the remote store via `_register_workflows`
and extend the ledger, and finally register the routes.  With no handlers the
remote store is not contacted (warning only). -/
def PaperlessHooks.init (ph : PaperlessHooks) (env : ApiEnv)
    (store : RemoteStore) : Except PyErr InitResult :=
  match synthesizeList ph .CONSUMPTION_STARTED (ph.event_handlers .CONSUMPTION_STARTED) with
  | .error e => .error e
  | .ok g1 =>
  match synthesizeList ph .DOCUMENT_ADDED (ph.event_handlers .DOCUMENT_ADDED) with
  | .error e => .error e
  | .ok g2 =>
  match synthesizeList ph .DOCUMENT_UPDATED (ph.event_handlers .DOCUMENT_UPDATED) with
  | .error e => .error e
  | .ok g3 =>
  match synthesizeList ph .SCHEDULED (ph.event_handlers .SCHEDULED) with
  | .error e => .error e
  | .ok g4 =>
    let workflows_to_create := (g1 ++ g2 ++ g3 ++ g4).map Prod.snd
    let handlersOf : TriggerType → List EventHandler := fun tt =>
      match tt with
      | .CONSUMPTION_STARTED => g1.map Prod.fst
      | .DOCUMENT_ADDED => g2.map Prod.fst
      | .DOCUMENT_UPDATED => g3.map Prod.fst
      | .SCHEDULED => g4.map Prod.fst
    if workflows_to_create.isEmpty then
      let ph2 := { ph with event_handlers := handlersOf }
      .ok { store := store, hooks := ph2, api_calls := [],
            routes := ph2._setup_routes }
    else
      match PaperlessHooks._register_workflows env store workflows_to_create with
      | .error e => .error e
      | .ok (store2, registered_workflows, creates) =>
        let ph2 := { ph with
                     event_handlers := handlersOf,
                     _registered_workflows :=
                       ph._registered_workflows ++ registered_workflows }
        .ok { store := store2, hooks := ph2,
              api_calls := ApiCall.listWorkflows ::
                creates.map ApiCall.createWorkflow,
              routes := ph2._setup_routes }

/-- The `for workflow_id in self._registered_workflows:` loop of `cleanup`.
The loop variable is named `workflow_id` but each ledger entry is the
`Workflow` model appended by `_register_workflows`; `delete_workflow`
interpolates it into the request path, so the path segment is the model's
`str()` rendering.  A deletion failure is caught and logged and the loop
continues. -/
def cleanupLoop (store : RemoteStore) :
    List Workflow → RemoteStore × List ApiCall
  | [] => (store, [])
  | w :: rest =>
    let path_segment := w.pyStr
    let store2 :=
      match PaperlessAPI.delete_workflow store path_segment with
      | .ok s2 => s2
      | .error _ => store
    let (s3, calls) := cleanupLoop store2 rest
    (s3, .deleteWorkflow path_segment :: calls)

/-- `PaperlessHooks.cleanup`: attempt to delete every ledger entry, then clear
the ledger unconditionally. -/
def PaperlessHooks.cleanup (store : RemoteStore) (ph : PaperlessHooks) :
    RemoteStore × PaperlessHooks × List ApiCall :=
  let (store2, calls) := cleanupLoop store ph._registered_workflows
  (store2, { ph with _registered_workflows := [] }, calls)

/-- The event-context construction inside `_setup_routes._json_handler`:
decode the inbound JSON body into the placeholder record and wrap it according
to the handler's trigger type. -/
def dispatchEvent (h : EventHandler) (json_data : List (String × String)) :
    EventContext :=
  let tmpl := PlaceholderTemplates.ofJson json_data
  match h.event_type with
  | .DOCUMENT_ADDED => .documentAdded { _payload := tmpl }
  | .DOCUMENT_UPDATED => .documentUpdated { _payload := tmpl }
  | .CONSUMPTION_STARTED => .payload tmpl
  | .SCHEDULED => .payload tmpl

/-- `_setup_routes._json_handler`, the closure bound to the handler's route:
decodes the body, builds the event context and ends with `handler(event)` —
one synchronous callback invocation, with no exception handling around it.
The first component is the callback's outcome (an exception propagates to the
backend); the second component is the sequence of callback invocations the
binding performs. -/
def json_handler (h : EventHandler) (json_data : List (String × String)) :
    Except PyErr Unit × List EventContext :=
  (h.func (dispatchEvent h json_data), [dispatchEvent h json_data])

/-- Concrete fixtures used by the closed theorems and witnesses. -/
def cbOk : EventContext → Except PyErr Unit := fun _ => .ok ()

def cbBoom : EventContext → Except PyErr Unit := fun _ => .error (.userError "boom")

def envOk : ApiEnv := { listFails := false, createFails := fun _ => false }

def envListDown : ApiEnv := { listFails := true, createFails := fun _ => false }

def emptyStore : RemoteStore := { workflows := [], next_id := 1 }

/-- One document-added registration with an unrecognized filter key, as a
caller would produce with
`@hooks.document_added(filters={"bogus": "x"})`. -/
def hooksBadFilter : PaperlessHooks :=
  (PaperlessHooks.new "http://paperless" "token" "http://hooks.example" 200).document_added
    (some [("bogus", .str "x")]) "h" cbOk

/-- One document-added registration named `h` with no filters. -/
def hooksOne : PaperlessHooks :=
  (PaperlessHooks.new "http://paperless" "token" "http://hooks.example" 200).document_added
    none "h" cbOk

/-- Two document-added registrations whose callbacks share the same
`__name__`. -/
def hooksDup (n : String) (f1 f2 : EventContext → Except PyErr Unit) :
    PaperlessHooks :=
  ((PaperlessHooks.new "http://paperless" "token" "http://hooks.example" 200).document_added
    none n f1).document_added none n f2

/-- Environment in which creating `paperless-hooks-h` fails. -/
def envFailCreateH : ApiEnv :=
  { listFails := false, createFails := fun s => s = "paperless-hooks-h" }

/-- A payload whose `doc_url` is the given string and every other field keeps
its template marker. -/
def payloadWithDocUrl (u : String) : PlaceholderTemplates :=
  { doc_url := u }

/-- A document-added handler fixture for the dispatch theorems. -/
def hAddedOk : EventHandler :=
  { func := cbOk, event_type := .DOCUMENT_ADDED, name := "h" }

/-- A document-added handler whose callback raises. -/
def hAddedBoom : EventHandler :=
  { func := cbBoom, event_type := .DOCUMENT_ADDED, name := "h" }

/-! ## Helper lemmas about filter application -/

lemma string_append_left_cancel {p a b : String} (h : p ++ a = p ++ b) :
    a = b := by
  have hd : (p ++ a).data = (p ++ b).data := congrArg String.data h
  rw [String.data_append, String.data_append] at hd
  exact String.ext (List.append_cancel_left hd)


set_option maxHeartbeats 2000000 in
lemma triggerSetattr_isSome_of_mem {k : String} (t : WorkflowTrigger) (v : PyVal)
    (hk : k ∈ triggerFieldNames) : (triggerSetattr t k v).isSome := by
  fin_cases hk <;> simp [triggerSetattr]

lemma triggerSetattr_none_of_not_mem {k : String} (t : WorkflowTrigger) (v : PyVal)
    (hk : k ∉ triggerFieldNames) : triggerSetattr t k v = none := by
  simp only [triggerFieldNames, List.mem_cons, List.not_mem_nil, or_false,
    not_or] at hk
  obtain ⟨h1, h2, h3, h4, h5, h6, h7, h8, h9, h10, h11, h12, h13, h14, h15,
    h16, h17, h18, h19⟩ := hk
  simp only [triggerSetattr, h1, h2, h3, h4, h5, h6, h7, h8, h9, h10, h11,
    h12, h13, h14, h15, h16, h17, h18, h19, if_false]

set_option maxHeartbeats 2000000 in
lemma triggerSetattr_type_preserved {t t2 : WorkflowTrigger} {k : String}
    {v : PyVal} (hk : k ≠ "type") (h : triggerSetattr t k v = some t2) :
    t2.type = t.type := by
  by_cases hmem : k ∈ triggerFieldNames
  · fin_cases hmem <;>
      first
        | exact absurd rfl hk
        | (simp [triggerSetattr] at h
           subst h
           rfl)
  · rw [triggerSetattr_none_of_not_mem t v hmem] at h
    cases h

lemma applyFilters_ok_of_recognized (t : WorkflowTrigger)
    (fs : List (String × PyVal)) (hfs : ∀ kv ∈ fs, kv.1 ∈ triggerFieldNames) :
    ∃ t2, applyFilters t fs = .ok t2 := by
  induction fs generalizing t with
  | nil => exact ⟨t, rfl⟩
  | cons kv rest ih =>
    have hmem : kv.1 ∈ triggerFieldNames := hfs kv (List.mem_cons_self _ _)
    have hsome := triggerSetattr_isSome_of_mem t kv.2 hmem
    obtain ⟨t1, ht1⟩ := Option.isSome_iff_exists.mp hsome
    obtain ⟨t2, ht2⟩ := ih t1 (fun kv2 h2 => hfs kv2 (List.mem_cons_of_mem _ h2))
    exact ⟨t2, by simp [applyFilters, ht1, ht2]⟩

lemma applyFilters_error_of_unrecognized (t : WorkflowTrigger)
    (fs : List (String × PyVal)) {k : String} {v : PyVal}
    (hmem : (k, v) ∈ fs) (hk : k ∉ triggerFieldNames) :
    ∃ e, applyFilters t fs = .error e := by
  induction fs generalizing t with
  | nil => cases hmem
  | cons kv rest ih =>
    cases h1 : triggerSetattr t kv.1 kv.2 with
    | none =>
      exact ⟨.valueError ("WorkflowTrigger object has no field " ++ kv.1),
        by simp [applyFilters, h1]⟩
    | some t1 =>
      rcases List.mem_cons.mp hmem with heq | htail
      · exfalso
        cases heq
        rw [triggerSetattr_none_of_not_mem t v hk] at h1
        cases h1
      · obtain ⟨e, he⟩ := ih t1 htail
        exact ⟨e, by simp [applyFilters, h1, he]⟩

lemma applyFilters_type_preserved {t t2 : WorkflowTrigger}
    {fs : List (String × PyVal)} (hk : ∀ v, ("type", v) ∉ fs)
    (h : applyFilters t fs = .ok t2) : t2.type = t.type := by
  induction fs generalizing t with
  | nil => cases h; rfl
  | cons kv rest ih =>
    cases h1 : triggerSetattr t kv.1 kv.2 with
    | none => simp [applyFilters, h1] at h
    | some t1 =>
      have hk1 : kv.1 ≠ "type" := by
        intro habs
        exact hk kv.2 (by
          have : kv = ("type", kv.2) := Prod.ext habs rfl
          rw [← this]
          exact List.mem_cons_self kv rest)
      have hrec : applyFilters t1 rest = .ok t2 := by
        simpa [applyFilters, h1] using h
      have hstep := triggerSetattr_type_preserved hk1 h1
      rw [ih (fun v hv => hk v (List.mem_cons_of_mem _ hv)) hrec, hstep]

/-! ## Helper lemmas about workflow synthesis -/

lemma synthesizeHandler_ok_inv {ph : PaperlessHooks} {tt : TriggerType}
    {h : EventHandler} {p : EventHandler × Workflow}
    (hok : synthesizeHandler ph tt h = .ok p) :
    ∃ trig, applyFilters { type := .int tt.enumVal } h.filters = .ok trig ∧
      p.2 = { name := "paperless-hooks-" ++ h.name,
              order := ph.workflow_start_index, enabled := true,
              triggers := [trig],
              actions := [{
                type := 4,
                webhook := some {
                  url := ph.webhook_base_url ++ "/" ++ h.name,
                  use_params := true, as_json := true, include_document := false,
                  params := PlaceholderTemplates.model_dump {} } }] } ∧
      p.1 = { h with workflow := some p.2, url := some ("/" ++ h.name) } := by
  unfold synthesizeHandler at hok
  cases happ : applyFilters { type := .int tt.enumVal } h.filters with
  | error e => rw [happ] at hok; cases hok
  | ok trig =>
    rw [happ] at hok
    cases hok
    exact ⟨trig, rfl, rfl, rfl⟩

lemma synthesizeHandler_ok_of_recognized (ph : PaperlessHooks)
    (tt : TriggerType) (h : EventHandler)
    (hfs : ∀ kv ∈ h.filters, kv.1 ∈ triggerFieldNames) :
    ∃ p, synthesizeHandler ph tt h = .ok p := by
  obtain ⟨trig, htrig⟩ :=
    applyFilters_ok_of_recognized { type := .int tt.enumVal } h.filters hfs
  exact ⟨_, by unfold synthesizeHandler; rw [htrig]⟩

lemma synthesizeList_ok_of_recognized (ph : PaperlessHooks)
    (tt : TriggerType) (hs : List EventHandler)
    (hfs : ∀ h ∈ hs, ∀ kv ∈ h.filters, kv.1 ∈ triggerFieldNames) :
    ∃ l, synthesizeList ph tt hs = .ok l := by
  induction hs with
  | nil => exact ⟨[], rfl⟩
  | cons h rest ih =>
    obtain ⟨p, hp⟩ := synthesizeHandler_ok_of_recognized ph tt h
      (hfs h (List.mem_cons_self _ _))
    obtain ⟨l, hl⟩ := ih (fun h2 hmem => hfs h2 (List.mem_cons_of_mem _ hmem))
    exact ⟨p :: l, by simp [synthesizeList, hp, hl]⟩

lemma synthesizeList_error_of_unrecognized (ph : PaperlessHooks)
    (tt : TriggerType) (hs : List EventHandler) {h : EventHandler}
    {k : String} {v : PyVal} (hh : h ∈ hs) (hkv : (k, v) ∈ h.filters)
    (hk : k ∉ triggerFieldNames) :
    ∃ e, synthesizeList ph tt hs = .error e := by
  induction hs with
  | nil => cases hh
  | cons h0 rest ih =>
    cases h1 : synthesizeHandler ph tt h0 with
    | error e => exact ⟨e, by simp [synthesizeList, h1]⟩
    | ok p =>
      rcases List.mem_cons.mp hh with heq | htail
      · exfalso
        subst heq
        obtain ⟨e, he⟩ :=
          applyFilters_error_of_unrecognized { type := .int tt.enumVal }
            h.filters hkv hk
        unfold synthesizeHandler at h1
        rw [he] at h1
        cases h1
      · obtain ⟨e, he⟩ := ih htail
        exact ⟨e, by simp [synthesizeList, h1, he]⟩

lemma synthesizeList_maps {ph : PaperlessHooks} {tt : TriggerType}
    {hs : List EventHandler} {l : List (EventHandler × Workflow)}
    (hok : synthesizeList ph tt hs = .ok l) :
    l.map (fun p => p.1.name) = hs.map (fun h => h.name) ∧
    l.map (fun p => p.2.name) = hs.map (fun h => "paperless-hooks-" ++ h.name) ∧
    l.map (fun p => p.1.url) = hs.map (fun h => some ("/" ++ h.name)) ∧
    l.map (fun p => p.1.filters) = hs.map (fun h => h.filters) ∧
    l.map (fun p => p.1.event_type) = hs.map (fun h => h.event_type) := by
  induction hs generalizing l with
  | nil => cases hok; simp
  | cons h rest ih =>
    cases h1 : synthesizeHandler ph tt h with
    | error e => simp [synthesizeList, h1] at hok
    | ok p =>
      cases h2 : synthesizeList ph tt rest with
      | error e => simp [synthesizeList, h1, h2] at hok
      | ok l2 =>
        have : l = p :: l2 := by
          have := hok
          simp [synthesizeList, h1, h2] at this
          exact this.symm
        subst this
        obtain ⟨m1, m2, m3, m4, m5⟩ := ih h2
        obtain ⟨trig, _, hw, hh⟩ := synthesizeHandler_ok_inv h1
        refine ⟨?_, ?_, ?_, ?_, ?_⟩ <;> simp [m1, m2, m3, m4, m5, hw, hh]

lemma synthesizeList_mem {ph : PaperlessHooks} {tt : TriggerType}
    {hs : List EventHandler} {l : List (EventHandler × Workflow)}
    (hok : synthesizeList ph tt hs = .ok l) :
    ∀ p ∈ l, ∃ h ∈ hs, synthesizeHandler ph tt h = .ok p := by
  induction hs generalizing l with
  | nil => cases hok; intro p hp; cases hp
  | cons h rest ih =>
    cases h1 : synthesizeHandler ph tt h with
    | error e => simp [synthesizeList, h1] at hok
    | ok p0 =>
      cases h2 : synthesizeList ph tt rest with
      | error e => simp [synthesizeList, h1, h2] at hok
      | ok l2 =>
        have : l = p0 :: l2 := by
          have := hok
          simp [synthesizeList, h1, h2] at this
          exact this.symm
        subst this
        intro p hp
        rcases List.mem_cons.mp hp with heq | htail
        · exact ⟨h, List.mem_cons_self _ _, by rw [heq]; exact h1⟩
        · obtain ⟨h3, hmem3, hok3⟩ := ih h2 p htail
          exact ⟨h3, List.mem_cons_of_mem _ hmem3, hok3⟩

/-! ## Helper lemmas about the reconciliation loop -/

lemma create_workflow_ok_inv {env : ApiEnv} {store store2 : RemoteStore}
    {w created : Workflow}
    (hc : PaperlessAPI.create_workflow env store w = .ok (store2, created)) :
    created = { w with id := some store.next_id } ∧
    store2.workflows = store.workflows ++ [{ w with id := some store.next_id }] ∧
    env.createFails w.name = false := by
  by_cases hcf : env.createFails w.name = true
  · unfold PaperlessAPI.create_workflow at hc
    rw [if_pos hcf] at hc
    cases hc
  · unfold PaperlessAPI.create_workflow at hc
    rw [if_neg hcf] at hc
    cases hc
    exact ⟨rfl, rfl, by simpa using hcf⟩

lemma create_workflow_ok_of_not_fails {env : ApiEnv} (store : RemoteStore)
    (w : Workflow) (hcf : env.createFails w.name = false) :
    PaperlessAPI.create_workflow env store w =
      .ok ({ workflows := store.workflows ++ [{ w with id := some store.next_id }],
             next_id := store.next_id + 1 }, { w with id := some store.next_id }) := by
  unfold PaperlessAPI.create_workflow
  rw [hcf]
  simp

lemma registerLoop_cons_mem {env : ApiEnv} {ex : List String}
    {store : RemoteStore} {w : Workflow} {rest : List Workflow}
    (hmem : w.name ∈ ex) :
    registerLoop env ex store (w :: rest) = registerLoop env ex store rest := by
  rw [registerLoop, if_pos hmem]

lemma registerLoop_cons_ok {env : ApiEnv} {ex : List String}
    {store store2 s3 : RemoteStore} {w created : Workflow}
    {rest reg calls : List Workflow} (hmem : w.name ∉ ex)
    (hc : PaperlessAPI.create_workflow env store w = .ok (store2, created))
    (hpair : registerLoop env ex store2 rest = (s3, reg, calls)) :
    registerLoop env ex store (w :: rest) = (s3, created :: reg, w :: calls) := by
  rw [registerLoop, if_neg hmem, hc]
  simp [hpair]

lemma registerLoop_cons_error {env : ApiEnv} {ex : List String}
    {store s3 : RemoteStore} {w : Workflow} {e : PyErr}
    {rest reg calls : List Workflow} (hmem : w.name ∉ ex)
    (hc : PaperlessAPI.create_workflow env store w = .error e)
    (hpair : registerLoop env ex store rest = (s3, reg, calls)) :
    registerLoop env ex store (w :: rest) = (s3, reg, w :: calls) := by
  rw [registerLoop, if_neg hmem, hc]
  simp [hpair]

lemma registerLoop_store_append (env : ApiEnv) (ex : List String)
    (store : RemoteStore) (ws : List Workflow) :
    ∃ ext, (registerLoop env ex store ws).1.workflows = store.workflows ++ ext := by
  induction ws generalizing store with
  | nil => exact ⟨[], by simp [registerLoop]⟩
  | cons w rest ih =>
    by_cases hmem : w.name ∈ ex
    · obtain ⟨ext, hext⟩ := ih store
      exact ⟨ext, by rw [registerLoop_cons_mem hmem]; exact hext⟩
    · cases hc : PaperlessAPI.create_workflow env store w with
      | ok sw =>
        rcases sw with ⟨store2, created⟩
        obtain ⟨-, hsw, -⟩ := create_workflow_ok_inv hc
        obtain ⟨ext, hext⟩ := ih store2
        rcases hpair : registerLoop env ex store2 rest with ⟨s3, reg, calls⟩
        rw [hpair] at hext
        refine ⟨{ w with id := some store.next_id } :: ext, ?_⟩
        rw [registerLoop_cons_ok hmem hc hpair]
        simp only at hext
        rw [hext, hsw]
        simp
      | error e =>
        obtain ⟨ext, hext⟩ := ih store
        rcases hpair : registerLoop env ex store rest with ⟨s3, reg, calls⟩
        rw [hpair] at hext
        refine ⟨ext, ?_⟩
        rw [registerLoop_cons_error hmem hc hpair]
        exact hext

lemma registerLoop_calls (env : ApiEnv) (ex : List String)
    (store : RemoteStore) (ws : List Workflow) :
    (registerLoop env ex store ws).2.2 = ws.filter (fun w => !(w.name ∈ ex : Bool)) := by
  induction ws generalizing store with
  | nil => simp [registerLoop]
  | cons w rest ih =>
    by_cases hmem : w.name ∈ ex
    · rw [registerLoop_cons_mem hmem, ih store]
      simp [hmem]
    · cases hc : PaperlessAPI.create_workflow env store w with
      | ok sw =>
        rcases sw with ⟨store2, created⟩
        rcases hpair : registerLoop env ex store2 rest with ⟨s3, reg, calls⟩
        have := ih store2
        rw [hpair] at this
        rw [registerLoop_cons_ok hmem hc hpair]
        simp only at this
        simp [hmem, this]
      | error e =>
        rcases hpair : registerLoop env ex store rest with ⟨s3, reg, calls⟩
        have := ih store
        rw [hpair] at this
        rw [registerLoop_cons_error hmem hc hpair]
        simp only at this
        simp [hmem, this]

lemma registerLoop_noop (env : ApiEnv) (ex : List String)
    (store : RemoteStore) (ws : List Workflow)
    (hall : ∀ w ∈ ws, w.name ∈ ex) :
    registerLoop env ex store ws = (store, [], []) := by
  induction ws with
  | nil => rfl
  | cons w rest ih =>
    rw [registerLoop_cons_mem (hall w (List.mem_cons_self _ _))]
    exact ih (fun w2 h2 => hall w2 (List.mem_cons_of_mem _ h2))

lemma storeNames_mono_of_append {store : RemoteStore} {s3 : RemoteStore}
    {ext : List Workflow} (h : s3.workflows = store.workflows ++ ext)
    {nm : String} (hmem : nm ∈ storeNames store) : nm ∈ storeNames s3 := by
  unfold storeNames at hmem ⊢
  rw [h, List.map_append]
  exact List.mem_append_left _ hmem

lemma registerLoop_mem_names (env : ApiEnv) (ex : List String)
    (store : RemoteStore) (ws : List Workflow)
    (hex : ∀ s ∈ ex, s ∈ storeNames store) :
    ∀ w ∈ ws, env.createFails w.name = false →
      w.name ∈ storeNames (registerLoop env ex store ws).1 := by
  induction ws generalizing store with
  | nil => intro w hw; cases hw
  | cons w0 rest ih =>
    intro w hw hcf
    rcases List.mem_cons.mp hw with heq | htail
    · subst heq
      by_cases hmem : w.name ∈ ex
      · rw [registerLoop_cons_mem hmem]
        obtain ⟨ext, hext⟩ := registerLoop_store_append env ex store rest
        exact storeNames_mono_of_append hext (hex _ hmem)
      · have hc := create_workflow_ok_of_not_fails store w hcf
        set store2 : RemoteStore :=
          { workflows := store.workflows ++ [{ w with id := some store.next_id }],
            next_id := store.next_id + 1 } with hstore2
        rcases hpair : registerLoop env ex store2 rest with ⟨s3, reg, calls⟩
        rw [registerLoop_cons_ok hmem hc hpair]
        obtain ⟨ext, hext⟩ := registerLoop_store_append env ex store2 rest
        rw [hpair] at hext
        simp only at hext ⊢
        have hin2 : w.name ∈ storeNames store2 := by simp [storeNames, hstore2]
        exact storeNames_mono_of_append hext hin2
    · by_cases hmem : w0.name ∈ ex
      · rw [registerLoop_cons_mem hmem]
        exact ih store hex w htail hcf
      · cases hc : PaperlessAPI.create_workflow env store w0 with
        | ok sw =>
          rcases sw with ⟨store2, created⟩
          obtain ⟨-, hsw, -⟩ := create_workflow_ok_inv hc
          have hex2 : ∀ s ∈ ex, s ∈ storeNames store2 := fun s hs =>
            storeNames_mono_of_append hsw (hex s hs)
          have hih := ih store2 hex2 w htail hcf
          rcases hpair : registerLoop env ex store2 rest with ⟨s3, reg, calls⟩
          rw [hpair] at hih
          rw [registerLoop_cons_ok hmem hc hpair]
          exact hih
        | error e =>
          have hih := ih store hex w htail hcf
          rcases hpair : registerLoop env ex store rest with ⟨s3, reg, calls⟩
          rw [hpair] at hih
          rw [registerLoop_cons_error hmem hc hpair]
          exact hih

/-! ## Characterization of `_register_workflows` and `init` -/

lemma register_workflows_of_listFails {env : ApiEnv} (store : RemoteStore)
    (ws : List Workflow) (hl : env.listFails = true) :
    PaperlessHooks._register_workflows env store ws =
      .error (.apiError "workflows listing failed") := by
  unfold PaperlessHooks._register_workflows PaperlessAPI.workflows_iter
  rw [hl]
  simp

lemma register_workflows_of_not_listFails {env : ApiEnv} (store : RemoteStore)
    (ws : List Workflow) (hl : env.listFails = false) :
    PaperlessHooks._register_workflows env store ws =
      .ok (registerLoop env (storeNames store) store ws) := by
  unfold PaperlessHooks._register_workflows PaperlessAPI.workflows_iter
  rw [hl]
  simp [storeNames]

lemma init_ok_inv {ph : PaperlessHooks} {env : ApiEnv} {store : RemoteStore}
    {r : InitResult} (h : ph.init env store = .ok r) :
    ∃ g1 g2 g3 g4,
      synthesizeList ph .CONSUMPTION_STARTED (ph.event_handlers .CONSUMPTION_STARTED) = .ok g1 ∧
      synthesizeList ph .DOCUMENT_ADDED (ph.event_handlers .DOCUMENT_ADDED) = .ok g2 ∧
      synthesizeList ph .DOCUMENT_UPDATED (ph.event_handlers .DOCUMENT_UPDATED) = .ok g3 ∧
      synthesizeList ph .SCHEDULED (ph.event_handlers .SCHEDULED) = .ok g4 ∧
      r.hooks.event_handlers .CONSUMPTION_STARTED = g1.map Prod.fst ∧
      r.hooks.event_handlers .DOCUMENT_ADDED = g2.map Prod.fst ∧
      r.hooks.event_handlers .DOCUMENT_UPDATED = g3.map Prod.fst ∧
      r.hooks.event_handlers .SCHEDULED = g4.map Prod.fst ∧
      r.routes = r.hooks._setup_routes ∧
      r.hooks.webhook_base_url = ph.webhook_base_url ∧
      r.hooks.workflow_start_index = ph.workflow_start_index ∧
      ((((g1 ++ g2 ++ g3 ++ g4).map Prod.snd).isEmpty = true ∧ r.store = store ∧
          r.api_calls = [] ∧
          r.hooks._registered_workflows = ph._registered_workflows) ∨
        (((g1 ++ g2 ++ g3 ++ g4).map Prod.snd).isEmpty = false ∧
          env.listFails = false ∧
          r.store = (registerLoop env (storeNames store) store
            ((g1 ++ g2 ++ g3 ++ g4).map Prod.snd)).1 ∧
          r.hooks._registered_workflows = ph._registered_workflows ++
            (registerLoop env (storeNames store) store
              ((g1 ++ g2 ++ g3 ++ g4).map Prod.snd)).2.1 ∧
          r.api_calls = ApiCall.listWorkflows ::
            ((registerLoop env (storeNames store) store
              ((g1 ++ g2 ++ g3 ++ g4).map Prod.snd)).2.2).map ApiCall.createWorkflow)) := by
  unfold PaperlessHooks.init at h
  cases h1 : synthesizeList ph .CONSUMPTION_STARTED (ph.event_handlers .CONSUMPTION_STARTED) with
  | error e => rw [h1] at h; cases h
  | ok g1 =>
  rw [h1] at h
  cases h2 : synthesizeList ph .DOCUMENT_ADDED (ph.event_handlers .DOCUMENT_ADDED) with
  | error e => rw [h2] at h; cases h
  | ok g2 =>
  rw [h2] at h
  cases h3 : synthesizeList ph .DOCUMENT_UPDATED (ph.event_handlers .DOCUMENT_UPDATED) with
  | error e => rw [h3] at h; cases h
  | ok g3 =>
  rw [h3] at h
  cases h4 : synthesizeList ph .SCHEDULED (ph.event_handlers .SCHEDULED) with
  | error e => rw [h4] at h; cases h
  | ok g4 =>
  rw [h4] at h
  simp only at h
  refine ⟨g1, g2, g3, g4, rfl, rfl, rfl, rfl, ?_⟩
  by_cases hemp : ((g1 ++ g2 ++ g3 ++ g4).map Prod.snd).isEmpty
  · rw [if_pos hemp] at h
    cases h
    exact ⟨rfl, rfl, rfl, rfl, rfl, rfl, rfl, Or.inl ⟨hemp, rfl, rfl, rfl⟩⟩
  · rw [if_neg hemp] at h
    by_cases hl : env.listFails
    · rw [register_workflows_of_listFails store _ hl] at h
      cases h
    · rw [register_workflows_of_not_listFails store _ (by simpa using hl)] at h
      rcases hpair : registerLoop env (storeNames store) store
          ((g1 ++ g2 ++ g3 ++ g4).map Prod.snd) with ⟨s3, reg, calls⟩
      rw [hpair] at h
      simp only at h
      cases h
      refine ⟨rfl, rfl, rfl, rfl, rfl, rfl, rfl, Or.inr ?_⟩
      exact ⟨by simpa using hemp, by simpa using hl, rfl, rfl, rfl⟩

lemma mem_allHandlers_of_group {ph : PaperlessHooks} {tt : TriggerType}
    {h : EventHandler} (hmem : h ∈ ph.event_handlers tt) :
    h ∈ ph.allHandlers := by
  unfold PaperlessHooks.allHandlers
  cases tt <;> simp [hmem]

lemma synthesizeList_length {ph : PaperlessHooks} {tt : TriggerType}
    {hs : List EventHandler} {l : List (EventHandler × Workflow)}
    (hok : synthesizeList ph tt hs = .ok l) : l.length = hs.length := by
  simpa using congrArg List.length (synthesizeList_maps hok).1

lemma init_ok_of_recognized (ph : PaperlessHooks) (env : ApiEnv)
    (store : RemoteStore)
    (hfs : ∀ h ∈ ph.allHandlers, ∀ kv ∈ h.filters, kv.1 ∈ triggerFieldNames)
    (hl : env.listFails = false) :
    ∃ r, ph.init env store = .ok r := by
  obtain ⟨g1, hg1⟩ := synthesizeList_ok_of_recognized ph .CONSUMPTION_STARTED
    (ph.event_handlers .CONSUMPTION_STARTED)
    (fun h hm => hfs h (mem_allHandlers_of_group hm))
  obtain ⟨g2, hg2⟩ := synthesizeList_ok_of_recognized ph .DOCUMENT_ADDED
    (ph.event_handlers .DOCUMENT_ADDED)
    (fun h hm => hfs h (mem_allHandlers_of_group hm))
  obtain ⟨g3, hg3⟩ := synthesizeList_ok_of_recognized ph .DOCUMENT_UPDATED
    (ph.event_handlers .DOCUMENT_UPDATED)
    (fun h hm => hfs h (mem_allHandlers_of_group hm))
  obtain ⟨g4, hg4⟩ := synthesizeList_ok_of_recognized ph .SCHEDULED
    (ph.event_handlers .SCHEDULED)
    (fun h hm => hfs h (mem_allHandlers_of_group hm))
  unfold PaperlessHooks.init
  rw [hg1, hg2, hg3, hg4]
  simp only
  by_cases hemp : ((g1 ++ g2 ++ g3 ++ g4).map Prod.snd).isEmpty
  · rw [if_pos hemp]
    exact ⟨_, rfl⟩
  · rw [if_neg hemp, register_workflows_of_not_listFails store _ hl]
    rcases registerLoop env (storeNames store) store
      ((g1 ++ g2 ++ g3 ++ g4).map Prod.snd) with ⟨s3, reg, calls⟩
    exact ⟨_, rfl⟩

lemma init_error_of_listFails (ph : PaperlessHooks) (env : ApiEnv)
    (store : RemoteStore)
    (hfs : ∀ h ∈ ph.allHandlers, ∀ kv ∈ h.filters, kv.1 ∈ triggerFieldNames)
    (hne : ph.allHandlers ≠ []) (hl : env.listFails = true) :
    ph.init env store = .error (.apiError "workflows listing failed") := by
  obtain ⟨g1, hg1⟩ := synthesizeList_ok_of_recognized ph .CONSUMPTION_STARTED
    (ph.event_handlers .CONSUMPTION_STARTED)
    (fun h hm => hfs h (mem_allHandlers_of_group hm))
  obtain ⟨g2, hg2⟩ := synthesizeList_ok_of_recognized ph .DOCUMENT_ADDED
    (ph.event_handlers .DOCUMENT_ADDED)
    (fun h hm => hfs h (mem_allHandlers_of_group hm))
  obtain ⟨g3, hg3⟩ := synthesizeList_ok_of_recognized ph .DOCUMENT_UPDATED
    (ph.event_handlers .DOCUMENT_UPDATED)
    (fun h hm => hfs h (mem_allHandlers_of_group hm))
  obtain ⟨g4, hg4⟩ := synthesizeList_ok_of_recognized ph .SCHEDULED
    (ph.event_handlers .SCHEDULED)
    (fun h hm => hfs h (mem_allHandlers_of_group hm))
  have hlen : ((g1 ++ g2 ++ g3 ++ g4).map Prod.snd).length =
      ph.allHandlers.length := by
    unfold PaperlessHooks.allHandlers
    simp [synthesizeList_length hg1, synthesizeList_length hg2,
      synthesizeList_length hg3, synthesizeList_length hg4]
  have hemp : ((g1 ++ g2 ++ g3 ++ g4).map Prod.snd).isEmpty ≠ true := by
    intro habs
    have hnil := List.isEmpty_iff.mp habs
    rw [hnil] at hlen
    have hpos : 0 < ph.allHandlers.length := List.length_pos.mpr hne
    simp at hlen
    omega
  unfold PaperlessHooks.init
  rw [hg1, hg2, hg3, hg4]
  simp only
  rw [if_neg hemp, register_workflows_of_listFails store _ hl]

lemma init_error_of_bad_filter (ph : PaperlessHooks) (env : ApiEnv)
    (store : RemoteStore) {tt : TriggerType} {h : EventHandler}
    {k : String} {v : PyVal} (hmem : h ∈ ph.event_handlers tt)
    (hkv : (k, v) ∈ h.filters) (hk : k ∉ triggerFieldNames) :
    ∃ e, ph.init env store = .error e := by
  unfold PaperlessHooks.init
  cases hg1 : synthesizeList ph .CONSUMPTION_STARTED (ph.event_handlers .CONSUMPTION_STARTED) with
  | error e => exact ⟨e, rfl⟩
  | ok g1 =>
  cases hg2 : synthesizeList ph .DOCUMENT_ADDED (ph.event_handlers .DOCUMENT_ADDED) with
  | error e => exact ⟨e, rfl⟩
  | ok g2 =>
  cases hg3 : synthesizeList ph .DOCUMENT_UPDATED (ph.event_handlers .DOCUMENT_UPDATED) with
  | error e => exact ⟨e, rfl⟩
  | ok g3 =>
  cases hg4 : synthesizeList ph .SCHEDULED (ph.event_handlers .SCHEDULED) with
  | error e => exact ⟨e, rfl⟩
  | ok g4 =>
  exfalso
  obtain ⟨e, he⟩ := synthesizeList_error_of_unrecognized ph tt
    (ph.event_handlers tt) hmem hkv hk
  cases tt
  · rw [hg1] at he; cases he
  · rw [hg2] at he; cases he
  · rw [hg3] at he; cases he
  · rw [hg4] at he; cases he

/-! ## The cleanup path never deletes anything -/

lemma idlit_data : "id=".data = ['i', 'd', '='] := rfl

lemma parseDigits_cons_nondigit {c : Char} {l : List Char}
    (h : digitVal c = none) : parseDigits (c :: l) = none := by
  simp [parseDigits, parseDigitsAux, h]

lemma workflow_pyStr_not_numeric (w : Workflow) :
    parseDigits (Workflow.pyStr w).data = none := by
  unfold Workflow.pyStr
  simp only [String.data_append, idlit_data, List.cons_append]
  exact parseDigits_cons_nondigit (by decide)

lemma delete_workflow_pyStr_fails (store : RemoteStore) (w : Workflow) :
    PaperlessAPI.delete_workflow store w.pyStr =
      .error (.apiError "404 Not Found") := by
  unfold PaperlessAPI.delete_workflow
  rw [workflow_pyStr_not_numeric]

lemma cleanupLoop_store_unchanged (ledger : List Workflow)
    (store : RemoteStore) : (cleanupLoop store ledger).1 = store := by
  induction ledger generalizing store with
  | nil => rfl
  | cons w rest ih =>
    rw [cleanupLoop, delete_workflow_pyStr_fails]
    simp only
    rcases hpair : cleanupLoop store rest with ⟨s3, calls⟩
    have := ih store
    rw [hpair] at this
    simpa [hpair] using this

lemma cleanup_store_unchanged (store : RemoteStore) (ph : PaperlessHooks) :
    (PaperlessHooks.cleanup store ph).1 = store ∧
    (PaperlessHooks.cleanup store ph).2.1._registered_workflows = [] := by
  unfold PaperlessHooks.cleanup
  rcases hpair : cleanupLoop store ph._registered_workflows with ⟨s3, calls⟩
  have := cleanupLoop_store_unchanged ph._registered_workflows store
  rw [hpair] at this
  exact ⟨this, rfl⟩

/-! ## Claim theorems -/

/-- C1 (code bug): the claim says `cleanup()` deletes exactly the workflows
created by this process's `init()`.  In the code, `_register_workflows`
appends the created `Workflow` models (not their ids) to the ledger, and
`cleanup` interpolates each ledger entry into the DELETE path, producing the
model's `str()` rendering (`id=1 name=...`), never a numeric id, so every
deletion fails with a 404 `PaperlessAPIError` that is caught and logged: the
first conjunct shows `cleanup` leaves any remote store completely unchanged
(while still clearing the ledger); the second runs the concrete failing
scenario — one handler `h`, empty remote store — where `init` creates
`paperless-hooks-h` remotely and a subsequent `cleanup` leaves it there,
deleting nothing instead of exactly the one created workflow. -/
theorem C1_cleanup_never_deletes :
    (∀ (store : RemoteStore) (ph : PaperlessHooks),
        (PaperlessHooks.cleanup store ph).1 = store ∧
        (PaperlessHooks.cleanup store ph).2.1._registered_workflows = []) ∧
    (∃ r, hooksOne.init envOk emptyStore = .ok r ∧
        storeNames r.store = ["paperless-hooks-h"] ∧
        r.hooks._registered_workflows.length = 1 ∧
        (PaperlessHooks.cleanup r.store r.hooks).1 = r.store ∧
        storeNames (PaperlessHooks.cleanup r.store r.hooks).1 =
          ["paperless-hooks-h"]) := by
  refine ⟨cleanup_store_unchanged, ?_⟩
  refine ⟨_, rfl, ?_, ?_, ?_, ?_⟩
  · decide
  · rfl
  · exact (cleanup_store_unchanged _ _).1
  · rw [(cleanup_store_unchanged _ _).1]
    decide

/-- Unfolding of `get_document_id` into its two steps. -/
lemma get_document_id_eq (e : DocumentAddedEvent) :
    e.get_document_id = pyGetNeg2 (pySplit e._payload.doc_url '/') >>= pyInt :=
  rfl

/-- C4 (corrected): document-ID extraction is
`int(doc_url.split("/")[-2])`.  On the claim's example URL
`https://host/api/documents/42/download/` the second-to-last slash-separated
component is `download`, so extraction raises `ValueError` instead of
returning 42: the claim's example contradicts its own general rule and the
code. -/
theorem C4_counterexample :
    DocumentAddedEvent.get_document_id
      { _payload := payloadWithDocUrl "https://host/api/documents/42/download/" } =
      .error (.valueError "invalid literal for int with base 10: download") ∧
    DocumentAddedEvent.get_document_id
      { _payload := payloadWithDocUrl "https://host/api/documents/42/download/" } ≠
      .ok 42 := by
  constructor
  · decide
  · decide

/-- C4 (amended): extraction returns the Python `int` of the second-to-last
slash-separated component of `doc_url` when that parses; on the remote
server's actual doc-URL shape `…/documents/42/` it returns 42; when the
component is non-numeric it raises `ValueError` and when it is absent (no
slash in the URL, so fewer than two components) it raises `IndexError` — both
Python built-ins, since the code defines no `PayloadError` class. -/
theorem C4_extraction_amended :
    (DocumentAddedEvent.get_document_id
      { _payload := payloadWithDocUrl "https://host/documents/42/" } = .ok 42) ∧
    (DocumentAddedEvent.get_document_id
      { _payload := payloadWithDocUrl "https://host/documents/7/" } = .ok 7) ∧
    (∀ u : String, (pySplit u '/').length < 2 →
      DocumentAddedEvent.get_document_id { _payload := payloadWithDocUrl u } =
        .error (.indexError "list index out of range")) ∧
    (∀ u : String, 2 ≤ (pySplit u '/').length →
      ∀ hlt : (pySplit u '/').length - 2 < (pySplit u '/').length,
      pyInt ((pySplit u '/').get ⟨(pySplit u '/').length - 2, hlt⟩) =
        .error (.valueError ("invalid literal for int with base 10: " ++
          (pySplit u '/').get ⟨(pySplit u '/').length - 2, hlt⟩)) →
      DocumentAddedEvent.get_document_id { _payload := payloadWithDocUrl u } =
        .error (.valueError ("invalid literal for int with base 10: " ++
          (pySplit u '/').get ⟨(pySplit u '/').length - 2, hlt⟩))) := by
  refine ⟨by decide, by decide, ?_, ?_⟩
  · intro u hlt
    rw [get_document_id_eq]
    show pyGetNeg2 (pySplit u '/') >>= pyInt = _
    have hseg : pyGetNeg2 (pySplit u '/') =
        .error (.indexError "list index out of range") := by
      unfold pyGetNeg2
      rw [dif_neg (by omega)]
    rw [hseg]
    rfl
  · intro u hlen hlt hint
    rw [get_document_id_eq]
    show pyGetNeg2 (pySplit u '/') >>= pyInt = _
    have hseg : pyGetNeg2 (pySplit u '/') =
        .ok ((pySplit u '/').get ⟨(pySplit u '/').length - 2, hlt⟩) := by
      unfold pyGetNeg2
      rw [dif_pos hlen]
    rw [hseg]
    simpa using hint

/-- C4 amended-theorem witness: the general error clauses applied at concrete
inputs — a slashless URL raises `IndexError`, and the claim's own example URL
has the non-numeric component `download`, raising `ValueError`. -/
theorem C4_extraction_amended_witness :
    DocumentAddedEvent.get_document_id
      { _payload := payloadWithDocUrl "no-slash-here" } =
      .error (.indexError "list index out of range") ∧
    DocumentAddedEvent.get_document_id
      { _payload := payloadWithDocUrl "https://host/api/documents/42/download/" } =
      .error (.valueError "invalid literal for int with base 10: download") := by
  constructor
  · exact C4_extraction_amended.2.2.1 "no-slash-here" (by decide)
  · exact C4_extraction_amended.2.2.2 "https://host/api/documents/42/download/"
      (by decide) (by decide) (by decide)

/-- C3 (corrected): the claim says a registration with an unrecognized
filter key fails immediately with `ConfigurationError`.  In the code the
decorators perform no validation at all: the registration below stores the
handler with its bogus filter key intact, and the error — a `ValueError` from
pydantic attribute assignment, since no `ConfigurationError` class exists —
only surfaces later, when `init()` applies the filters onto the trigger
template. -/
theorem C3_counterexample :
    (hooksBadFilter.event_handlers .DOCUMENT_ADDED).map (fun h => h.filters) =
      [[("bogus", PyVal.str "x")]] ∧
    hooksBadFilter.init envOk emptyStore =
      .error (.valueError "WorkflowTrigger object has no field bogus") := by
  exact ⟨rfl, rfl⟩

/-- C3 (amended): registration never validates filters and always succeeds,
storing the handler (with its filter mapping verbatim) in the registry; an
unrecognized filter key is not silently ignored, but it surfaces only at
`init()` time, as an error raised while the filters are assigned onto the
fresh trigger template — not as a `ConfigurationError` at registration time
(no such class exists in the code). -/
theorem C3_registration_validation_amended :
    (∀ (ph : PaperlessHooks) (filters : Option (List (String × PyVal)))
        (nm : String) (f : EventContext → Except PyErr Unit),
      (ph.document_added filters nm f).event_handlers .DOCUMENT_ADDED =
        ph.event_handlers .DOCUMENT_ADDED ++
          [{ func := f, event_type := .DOCUMENT_ADDED, index := 0, url := none,
             workflow := none, name := nm, filters := filters.getD [] }]) ∧
    (∀ (ph : PaperlessHooks) (env : ApiEnv) (store : RemoteStore)
        (tt : TriggerType) (h : EventHandler) (k : String) (v : PyVal),
      h ∈ ph.event_handlers tt → (k, v) ∈ h.filters →
      k ∉ triggerFieldNames → ∃ e, ph.init env store = .error e) := by
  constructor
  · intro ph filters nm f
    simp [PaperlessHooks.document_added, PaperlessHooks.add_event_handler]
  · intro ph env store tt h k v hmem hkv hk
    exact init_error_of_bad_filter ph env store hmem hkv hk

/-- C3 amended-theorem witness: registering `g` with a bogus filter key onto
the one-handler fixture appends it untouched, and `init()` on the bad-filter
fixture raises. -/
theorem C3_registration_validation_amended_witness :
    ((hooksOne.document_added (some [("bogus", PyVal.str "x")]) "g" cbOk).event_handlers
        .DOCUMENT_ADDED =
      hooksOne.event_handlers .DOCUMENT_ADDED ++
        [{ func := cbOk, event_type := .DOCUMENT_ADDED, index := 0, url := none,
           workflow := none, name := "g", filters := [("bogus", PyVal.str "x")] }]) ∧
    (∃ e, hooksBadFilter.init envOk emptyStore = .error e) := by
  constructor
  · exact C3_registration_validation_amended.1 hooksOne
      (some [("bogus", PyVal.str "x")]) "g" cbOk
  · exact C3_registration_validation_amended.2 hooksBadFilter envOk emptyStore
      .DOCUMENT_ADDED
      { func := cbOk, event_type := .DOCUMENT_ADDED, index := 0, url := none,
        workflow := none, name := "h", filters := [("bogus", PyVal.str "x")] }
      "bogus" (PyVal.str "x") (List.mem_cons_self _ _) (by decide) (by decide)

lemma lookupStr_cons_of_ne (j : List (String × String)) {k f : String}
    (v : String) (hne : ¬(k = f)) :
    lookupStr ((k, v) :: j) f = lookupStr j f := by
  unfold lookupStr
  rw [List.find?_cons_of_neg]
  simp [hne]

lemma ofJson_cons_unknown (body : List (String × String)) (k v : String)
    (hk : k ∉ placeholderFieldNames) :
    PlaceholderTemplates.ofJson ((k, v) :: body) =
      PlaceholderTemplates.ofJson body := by
  simp only [placeholderFieldNames, List.mem_cons, List.not_mem_nil, or_false,
    not_or] at hk
  obtain ⟨n1, n2, n3, n4, n5, n6, n7, n8, n9, n10, n11, n12, n13, n14, n15,
    n16, n17, n18, n19, n20, n21, n22, n23⟩ := hk
  unfold PlaceholderTemplates.ofJson
  rw [lookupStr_cons_of_ne body v n1, lookupStr_cons_of_ne body v n2,
    lookupStr_cons_of_ne body v n3, lookupStr_cons_of_ne body v n4,
    lookupStr_cons_of_ne body v n5, lookupStr_cons_of_ne body v n6,
    lookupStr_cons_of_ne body v n7, lookupStr_cons_of_ne body v n8,
    lookupStr_cons_of_ne body v n9, lookupStr_cons_of_ne body v n10,
    lookupStr_cons_of_ne body v n11, lookupStr_cons_of_ne body v n12,
    lookupStr_cons_of_ne body v n13, lookupStr_cons_of_ne body v n14,
    lookupStr_cons_of_ne body v n15, lookupStr_cons_of_ne body v n16,
    lookupStr_cons_of_ne body v n17, lookupStr_cons_of_ne body v n18,
    lookupStr_cons_of_ne body v n19, lookupStr_cons_of_ne body v n20,
    lookupStr_cons_of_ne body v n21, lookupStr_cons_of_ne body v n22,
    lookupStr_cons_of_ne body v n23]

/-- C8 (confirmed): for every inbound JSON body, the dispatch binding decodes
it into the placeholder record and invokes the handler's callback exactly once,
synchronously, with the trigger-type-appropriate context: a
`DocumentAddedEvent` for document-added, a `DocumentUpdatedEvent` for
document-updated, and the raw decoded record for consumption-started and
scheduled; decoding applies the declared template-marker defaults to missing
keys and ignores unknown keys. -/
theorem C8_dispatch_decodes_and_invokes (h : EventHandler)
    (body : List (String × String)) :
    ((json_handler h body).2 = [dispatchEvent h body]) ∧
    ((json_handler h body).1 = h.func (dispatchEvent h body)) ∧
    (h.event_type = .DOCUMENT_ADDED →
      dispatchEvent h body =
        .documentAdded { _payload := PlaceholderTemplates.ofJson body }) ∧
    (h.event_type = .DOCUMENT_UPDATED →
      dispatchEvent h body =
        .documentUpdated { _payload := PlaceholderTemplates.ofJson body }) ∧
    (h.event_type = .CONSUMPTION_STARTED →
      dispatchEvent h body = .payload (PlaceholderTemplates.ofJson body)) ∧
    (h.event_type = .SCHEDULED →
      dispatchEvent h body = .payload (PlaceholderTemplates.ofJson body)) ∧
    (PlaceholderTemplates.ofJson ([] : List (String × String)) = {}) ∧
    (∀ k v, k ∉ placeholderFieldNames →
      PlaceholderTemplates.ofJson ((k, v) :: body) =
        PlaceholderTemplates.ofJson body) := by
  refine ⟨rfl, rfl, ?_, ?_, ?_, ?_, rfl, ?_⟩
  · intro ht; unfold dispatchEvent; rw [ht]
  · intro ht; unfold dispatchEvent; rw [ht]
  · intro ht; unfold dispatchEvent; rw [ht]
  · intro ht; unfold dispatchEvent; rw [ht]
  · intro k v hk
    exact ofJson_cons_unknown body k v hk

/-- C8 witness: the dispatch facts at a concrete document-added handler and
body — the context is a `DocumentAddedEvent` wrapping the decoded payload,
and an unknown key `zzz` is ignored by decoding. -/
theorem C8_dispatch_decodes_and_invokes_witness :
    dispatchEvent hAddedOk [("doc_url", "https://host/documents/7/")] =
      .documentAdded { _payload :=
        PlaceholderTemplates.ofJson [("doc_url", "https://host/documents/7/")] } ∧
    PlaceholderTemplates.ofJson
        [("zzz", "1"), ("doc_url", "https://host/documents/7/")] =
      PlaceholderTemplates.ofJson [("doc_url", "https://host/documents/7/")] := by
  constructor
  · exact (C8_dispatch_decodes_and_invokes hAddedOk
      [("doc_url", "https://host/documents/7/")]).2.2.1 rfl
  · exact (C8_dispatch_decodes_and_invokes hAddedOk
      [("doc_url", "https://host/documents/7/")]).2.2.2.2.2.2.2 "zzz" "1"
      (by decide)

/-- C9 (confirmed): the dispatch binding ends with a bare `handler(event)`
call, with no surrounding exception handling: an exception raised by the user
callback is exactly the binding's outcome, propagating uncaught to the
Backend Adapter. -/
theorem C9_callback_exceptions_propagate (h : EventHandler)
    (body : List (String × String)) (e : PyErr)
    (hraise : h.func (dispatchEvent h body) = .error e) :
    (json_handler h body).1 = .error e := by
  unfold json_handler
  exact hraise

/-- C9 witness: a handler whose callback raises `boom` makes the binding
itself raise `boom`. -/
theorem C9_callback_exceptions_propagate_witness :
    (json_handler hAddedBoom []).1 = .error (.userError "boom") :=
  C9_callback_exceptions_propagate hAddedBoom [] (.userError "boom") rfl

lemma createdNames_init_calls (l : List Workflow) :
    createdNames (ApiCall.listWorkflows :: l.map ApiCall.createWorkflow) =
      l.map (fun w => w.name) := by
  induction l with
  | nil => rfl
  | cons w rest ih => simpa [createdNames, List.filterMap_cons] using ih

lemma count_listWorkflows_map_create (l : List Workflow) :
    (l.map ApiCall.createWorkflow).count ApiCall.listWorkflows = 0 := by
  rw [List.count_eq_zero]
  intro habs
  obtain ⟨w, -, hw⟩ := List.mem_map.mp habs
  cases hw

lemma registerLoop_pair_not_mem (env : ApiEnv) (ex : List String)
    (store : RemoteStore) (w1 w2 : Workflow)
    (hm1 : w1.name ∉ ex) (hm2 : w2.name ∉ ex)
    (hc1 : env.createFails w1.name = false)
    (hc2 : env.createFails w2.name = false) :
    storeNames (registerLoop env ex store [w1, w2]).1 =
      storeNames store ++ [w1.name, w2.name] ∧
    (registerLoop env ex store [w1, w2]).2.2 = [w1, w2] := by
  have hcw1 := create_workflow_ok_of_not_fails store w1 hc1
  set store2 : RemoteStore :=
    { workflows := store.workflows ++ [{ w1 with id := some store.next_id }],
      next_id := store.next_id + 1 } with hstore2
  have hcw2 := create_workflow_ok_of_not_fails store2 w2 hc2
  have h0 : registerLoop env ex
      { workflows := store2.workflows ++ [{ w2 with id := some store2.next_id }],
        next_id := store2.next_id + 1 } [] =
      ({ workflows := store2.workflows ++ [{ w2 with id := some store2.next_id }],
         next_id := store2.next_id + 1 }, [], []) := rfl
  have hr1 := registerLoop_cons_ok hm2 hcw2 h0
  have hr2 := registerLoop_cons_ok hm1 hcw1 hr1
  rw [hr2]
  refine ⟨?_, rfl⟩
  simp [storeNames, hstore2]

/-- C10 (confirmed): within one `init()` run the remote workflow name list is
fetched exactly once, at the head of the call sequence, and is not refreshed
after creations (first conjunct: at most one listing call in any successful
run, and when any call is made the listing is the first).  Consequently (second
conjunct) two handlers whose callbacks share a `__name__` — hence the same
derived workflow name — each get their own creation call when the name is not
present remotely beforehand, leaving two remote workflows with the same
name. -/
theorem C10_single_listing_duplicate_names :
    (∀ (ph : PaperlessHooks) (env : ApiEnv) (store : RemoteStore)
        (r : InitResult), ph.init env store = .ok r →
      r.api_calls.count ApiCall.listWorkflows ≤ 1 ∧
      (r.api_calls = [] ∨ r.api_calls.head? = some ApiCall.listWorkflows)) ∧
    (∀ (n : String) (f1 f2 : EventContext → Except PyErr Unit) (env : ApiEnv)
        (store : RemoteStore),
      env.listFails = false →
      env.createFails ("paperless-hooks-" ++ n) = false →
      "paperless-hooks-" ++ n ∉ storeNames store →
      ∃ r, (hooksDup n f1 f2).init env store = .ok r ∧
        (createdNames r.api_calls).count ("paperless-hooks-" ++ n) = 2 ∧
        (storeNames r.store).count ("paperless-hooks-" ++ n) = 2) := by
  constructor
  · intro ph env store r hinit
    obtain ⟨g1, g2, g3, g4, -, -, -, -, -, -, -, -, -, -, -, hcase⟩ :=
      init_ok_inv hinit
    rcases hcase with ⟨-, -, hcalls, -⟩ | ⟨-, -, -, -, hcalls⟩
    · rw [hcalls]
      exact ⟨by simp, Or.inl rfl⟩
    · rw [hcalls]
      refine ⟨?_, Or.inr rfl⟩
      rw [List.count_cons]
      simp [count_listWorkflows_map_create]
  · intro n f1 f2 env store hl hcf hnot
    have hall : (hooksDup n f1 f2).allHandlers =
        [{ func := f1, event_type := .DOCUMENT_ADDED, index := 0, url := none,
           workflow := none, name := n, filters := [] },
         { func := f2, event_type := .DOCUMENT_ADDED, index := 0, url := none,
           workflow := none, name := n, filters := [] }] := rfl
    have hfs : ∀ h ∈ (hooksDup n f1 f2).allHandlers,
        ∀ kv ∈ h.filters, kv.1 ∈ triggerFieldNames := by
      intro h hm kv hkv
      rw [hall] at hm
      rcases List.mem_cons.mp hm with rfl | hm2
      · cases hkv
      · rcases List.mem_cons.mp hm2 with rfl | hm3
        · cases hkv
        · cases hm3
    obtain ⟨r, hinit⟩ := init_ok_of_recognized (hooksDup n f1 f2) env store hfs hl
    obtain ⟨g1, g2, g3, g4, hg1, hg2, hg3, hg4, -, -, -, -, -, -, -, hcase⟩ :=
      init_ok_inv hinit
    have hnil1 : g1 = [] := by
      have h0 : synthesizeList (hooksDup n f1 f2) .CONSUMPTION_STARTED
          ((hooksDup n f1 f2).event_handlers .CONSUMPTION_STARTED) =
            .ok [] := rfl
      rw [h0] at hg1
      exact (Except.ok.injEq _ _).mp hg1.symm
    have hnil3 : g3 = [] := by
      have h0 : synthesizeList (hooksDup n f1 f2) .DOCUMENT_UPDATED
          ((hooksDup n f1 f2).event_handlers .DOCUMENT_UPDATED) = .ok [] := rfl
      rw [h0] at hg3
      exact (Except.ok.injEq _ _).mp hg3.symm
    have hnil4 : g4 = [] := by
      have h0 : synthesizeList (hooksDup n f1 f2) .SCHEDULED
          ((hooksDup n f1 f2).event_handlers .SCHEDULED) = .ok [] := rfl
      rw [h0] at hg4
      exact (Except.ok.injEq _ _).mp hg4.symm
    have hnames2 : g2.map (fun p => p.2.name) =
        ["paperless-hooks-" ++ n, "paperless-hooks-" ++ n] := by
      have := (synthesizeList_maps hg2).2.1
      rw [show (hooksDup n f1 f2).event_handlers .DOCUMENT_ADDED =
        [{ func := f1, event_type := .DOCUMENT_ADDED, index := 0, url := none,
           workflow := none, name := n, filters := [] },
         { func := f2, event_type := .DOCUMENT_ADDED, index := 0, url := none,
           workflow := none, name := n, filters := [] }] from rfl] at this
      simpa using this
    have hlen2 : g2.length = 2 := by
      simpa using congrArg List.length hnames2
    obtain ⟨p1, p2, hp12⟩ := List.length_eq_two.mp hlen2
    subst hp12
    simp only [List.map_cons, List.map_nil, List.cons.injEq, and_true] at hnames2
    obtain ⟨hn1, hn2⟩ := hnames2
    have htc : (g1 ++ [p1, p2] ++ g3 ++ g4).map Prod.snd = [p1.2, p2.2] := by
      subst hnil1 hnil3 hnil4
      rfl
    rcases hcase with ⟨hemp, -, -, -⟩ | ⟨-, -, hstore, -, hcalls⟩
    · rw [htc] at hemp
      cases hemp
    · rw [htc] at hstore hcalls
      obtain ⟨hsn, hcn⟩ := registerLoop_pair_not_mem env (storeNames store)
        store p1.2 p2.2 (by rw [hn1]; exact hnot) (by rw [hn2]; exact hnot)
        (by rw [hn1]; exact hcf) (by rw [hn2]; exact hcf)
      refine ⟨r, hinit, ?_, ?_⟩
      · rw [hcalls, createdNames_init_calls, hcn]
        simp [hn1, hn2]
      · rw [show storeNames r.store = storeNames
          (registerLoop env (storeNames store) store [p1.2, p2.2]).1 from
            congrArg storeNames hstore, hsn, hn1, hn2]
        rw [List.count_append]
        rw [List.count_eq_zero.mpr hnot]
        simp

/-- C10 witness: the duplicate-name scenario at concrete inputs (two handlers
both named `h`, empty store) and the single-listing bound at the one-handler
fixture. -/
theorem C10_single_listing_duplicate_names_witness :
    (∃ r, (hooksDup "h" cbOk cbBoom).init envOk emptyStore = .ok r ∧
      (createdNames r.api_calls).count ("paperless-hooks-" ++ "h") = 2 ∧
      (storeNames r.store).count ("paperless-hooks-" ++ "h") = 2) ∧
    (∃ r, hooksOne.init envOk emptyStore = .ok r ∧
      r.api_calls.count ApiCall.listWorkflows ≤ 1) := by
  constructor
  · exact C10_single_listing_duplicate_names.2 "h" cbOk cbBoom envOk emptyStore
      rfl rfl (by decide)
  · refine ⟨_, rfl, ?_⟩
    exact (C10_single_listing_duplicate_names.1 hooksOne envOk emptyStore _ rfl).1

lemma map_fst_comp {α β γ : Type} (g : List (α × β)) (f : α → γ) :
    (g.map Prod.fst).map f = g.map (fun p => f p.1) := by
  rw [List.map_map]
  rfl

lemma init_hooks_handler_maps {ph : PaperlessHooks} {env : ApiEnv}
    {store : RemoteStore} {r : InitResult} (hinit : ph.init env store = .ok r) :
    r.hooks.allHandlers.map (fun h => h.name) =
      ph.allHandlers.map (fun h => h.name) ∧
    r.hooks.allHandlers.map (fun h => h.url) =
      r.hooks.allHandlers.map (fun h => some ("/" ++ h.name)) := by
  obtain ⟨g1, g2, g3, g4, hg1, hg2, hg3, hg4, he1, he2, he3, he4, -, -, -, -⟩ :=
    init_ok_inv hinit
  have hall : r.hooks.allHandlers = g1.map Prod.fst ++ g2.map Prod.fst ++
      g3.map Prod.fst ++ g4.map Prod.fst := by
    unfold PaperlessHooks.allHandlers
    rw [he1, he2, he3, he4]
  have n1 := (synthesizeList_maps hg1).1
  have n2 := (synthesizeList_maps hg2).1
  have n3 := (synthesizeList_maps hg3).1
  have n4 := (synthesizeList_maps hg4).1
  have u1 := (synthesizeList_maps hg1).2.2.1
  have u2 := (synthesizeList_maps hg2).2.2.1
  have u3 := (synthesizeList_maps hg3).2.2.1
  have u4 := (synthesizeList_maps hg4).2.2.1
  have r1 : g1.map (fun p => some ("/" ++ p.1.name)) =
      (ph.event_handlers .CONSUMPTION_STARTED).map (fun h => some ("/" ++ h.name)) := by
    have := congrArg (List.map (fun s => some ("/" ++ s))) n1
    simpa [List.map_map] using this
  have r2 : g2.map (fun p => some ("/" ++ p.1.name)) =
      (ph.event_handlers .DOCUMENT_ADDED).map (fun h => some ("/" ++ h.name)) := by
    have := congrArg (List.map (fun s => some ("/" ++ s))) n2
    simpa [List.map_map] using this
  have r3 : g3.map (fun p => some ("/" ++ p.1.name)) =
      (ph.event_handlers .DOCUMENT_UPDATED).map (fun h => some ("/" ++ h.name)) := by
    have := congrArg (List.map (fun s => some ("/" ++ s))) n3
    simpa [List.map_map] using this
  have r4 : g4.map (fun p => some ("/" ++ p.1.name)) =
      (ph.event_handlers .SCHEDULED).map (fun h => some ("/" ++ h.name)) := by
    have := congrArg (List.map (fun s => some ("/" ++ s))) n4
    simpa [List.map_map] using this
  constructor
  · rw [hall]
    unfold PaperlessHooks.allHandlers
    simp only [List.map_append]
    rw [map_fst_comp, map_fst_comp, map_fst_comp, map_fst_comp, n1, n2, n3, n4]
  · rw [hall]
    simp only [List.map_append]
    rw [map_fst_comp g1 (fun h => h.url), map_fst_comp g2 (fun h => h.url),
      map_fst_comp g3 (fun h => h.url), map_fst_comp g4 (fun h => h.url),
      map_fst_comp g1 (fun h => some ("/" ++ h.name)),
      map_fst_comp g2 (fun h => some ("/" ++ h.name)),
      map_fst_comp g3 (fun h => some ("/" ++ h.name)),
      map_fst_comp g4 (fun h => some ("/" ++ h.name)),
      u1, u2, u3, u4, r1, r2, r3, r4]

lemma slash_append_ne_empty (s : String) : ("/" ++ s) ≠ "" := by
  intro habs
  have := congrArg String.data habs
  rw [String.data_append] at this
  cases this

lemma setup_filterMap_eq (hs : List EventHandler)
    (hurl : hs.map (fun h => h.url) = hs.map (fun h => some ("/" ++ h.name))) :
    (hs.filterMap (fun h =>
      match h.url with
      | none => none
      | some u => if u = "" then none else some (u, h))) =
      hs.map (fun h => ("/" ++ h.name, h)) := by
  induction hs with
  | nil => rfl
  | cons h rest ih =>
    simp only [List.map_cons, List.cons.injEq] at hurl
    obtain ⟨hhead, htail⟩ := hurl
    rw [List.filterMap_cons, hhead]
    simp only [if_neg (slash_append_ne_empty h.name)]
    rw [List.map_cons, ih htail]

lemma setup_routes_paths {ph : PaperlessHooks} {env : ApiEnv}
    {store : RemoteStore} {r : InitResult} (hinit : ph.init env store = .ok r) :
    r.routes.map Prod.fst =
      (ph.allHandlers.map (fun h => h.name)).map (fun s => "/" ++ s) := by
  obtain ⟨-, -, -, -, -, -, -, -, -, -, -, -, hroutes, -, -, -⟩ := init_ok_inv hinit
  obtain ⟨hnames, hurls⟩ := init_hooks_handler_maps hinit
  rw [hroutes]
  unfold PaperlessHooks._setup_routes
  rw [setup_filterMap_eq _ hurls]
  rw [List.map_map]
  have : ((fun p => p.1) ∘ fun h => ("/" ++ h.name, h)) =
      (fun h : EventHandler => "/" ++ h.name) := rfl
  rw [show (Prod.fst ∘ fun h : EventHandler => ("/" ++ h.name, h)) =
    (fun h : EventHandler => "/" ++ h.name) from rfl]
  rw [← hnames, List.map_map]
  rfl

/-- C7 (confirmed): after a completed `init()`, exactly one route is
registered with the backend at path `"/" + h.name` for every registered
handler `h` — the route trace is exactly one `add_json_endpoint` call per
handler regardless of whether the handler's workflow creation failed this run
(`env.createFails` is arbitrary) or its workflow name already existed
remotely (`store` is arbitrary).  Handler names are assumed distinct, the
spec's data-model requirement (`Name must be unique per process`). -/
theorem C7_one_route_per_handler (ph : PaperlessHooks) (env : ApiEnv)
    (store : RemoteStore) (r : InitResult)
    (hnodup : (ph.allHandlers.map (fun h => h.name)).Nodup)
    (hinit : ph.init env store = .ok r) :
    ∀ h ∈ ph.allHandlers, (r.routes.map Prod.fst).count ("/" ++ h.name) = 1 := by
  intro h hmem
  rw [setup_routes_paths hinit]
  have hinj : Function.Injective (fun s => "/" ++ s) := by
    intro a b hab
    exact string_append_left_cancel hab
  have hnodup2 : ((ph.allHandlers.map (fun h => h.name)).map
      (fun s => "/" ++ s)).Nodup := hnodup.map hinj
  have hmem2 : ("/" ++ h.name) ∈ (ph.allHandlers.map (fun h => h.name)).map
      (fun s => "/" ++ s) :=
    List.mem_map_of_mem _ (List.mem_map_of_mem _ hmem)
  exact List.count_eq_one_of_mem hnodup2 hmem2

/-- C7 witness: at a concrete run in which the only handler's creation fails
(`envFailCreateH` rejects `paperless-hooks-h`), the route `/h` is still
registered exactly once. -/
theorem C7_one_route_per_handler_witness :
    ∃ r, hooksOne.init envFailCreateH emptyStore = .ok r ∧
      (r.routes.map Prod.fst).count ("/" ++ "h") = 1 := by
  refine ⟨_, rfl, ?_⟩
  exact C7_one_route_per_handler hooksOne envFailCreateH emptyStore _
    (by decide) rfl
    { func := cbOk, event_type := .DOCUMENT_ADDED, index := 0, url := none,
      workflow := none, name := "h", filters := [] }
    (List.mem_cons_self _ _)

lemma synthesized_handler_shape {ph : PaperlessHooks} {tt : TriggerType}
    {hs : List EventHandler} {g : List (EventHandler × Workflow)}
    (hok : synthesizeList ph tt hs = .ok g)
    (hwf : ∀ h ∈ hs, h.event_type = tt) :
    ∀ h2 ∈ g.map Prod.fst, ∃ trig,
      applyFilters { type := .int h2.event_type.enumVal } h2.filters = .ok trig ∧
      h2.workflow = some
        { name := "paperless-hooks-" ++ h2.name,
          order := ph.workflow_start_index, enabled := true,
          triggers := [trig],
          actions := [{
            type := 4,
            webhook := some {
              url := ph.webhook_base_url ++ "/" ++ h2.name,
              use_params := true, as_json := true, include_document := false,
              params := PlaceholderTemplates.model_dump {} } }] } ∧
      ((∀ v, ("type", v) ∉ h2.filters) →
        trig.type = .int h2.event_type.enumVal) := by
  intro h2 hmem
  obtain ⟨p, hp, hph2⟩ := List.mem_map.mp hmem
  obtain ⟨h, hh, hsok⟩ := synthesizeList_mem hok p hp
  obtain ⟨trig, htrig, hw, hp1⟩ := synthesizeHandler_ok_inv hsok
  have htt := hwf h hh
  subst hph2
  have hfields : p.1.event_type = h.event_type ∧ p.1.filters = h.filters ∧
      p.1.name = h.name ∧ p.1.workflow = some p.2 := by
    rw [hp1]
    exact ⟨rfl, rfl, rfl, rfl⟩
  obtain ⟨hfe, hff, hfn, hfw⟩ := hfields
  refine ⟨trig, ?_, ?_, ?_⟩
  · rw [hfe, hff, htt]
    exact htrig
  · rw [hfw, hw, hfn]
  · intro hnot
    rw [hfe, htt]
    have hbase : (applyFilters { type := .int tt.enumVal } h.filters = .ok trig) :=
      htrig
    have := applyFilters_type_preserved
      (fun v hv => hnot v (by rw [hff]; exact hv)) hbase
    simpa using this

/-- C6 (confirmed): every workflow synthesized by `init()` for a handler has
name `"paperless-hooks-" + handler name`, order the configured start index,
enabled, exactly one trigger — the fresh trigger of the handler's trigger type
with the handler's filters applied by attribute assignment (and the trigger
type itself untouched whenever `"type"` is not a filter key) — and exactly one
action: a type-4 webhook action whose config has url = webhook base URL + "/"
+ handler name, JSON delivery, include-document false, and params the complete
placeholder template dump.  `hwf` is the registry invariant maintained by
`add_event_handler`: every handler is stored under its own trigger type. -/
theorem C6_synthesized_workflow_shape (ph : PaperlessHooks) (env : ApiEnv)
    (store : RemoteStore) (r : InitResult)
    (hwf : ∀ tt : TriggerType, ∀ h ∈ ph.event_handlers tt, h.event_type = tt)
    (hinit : ph.init env store = .ok r) :
    ∀ h2 ∈ r.hooks.allHandlers, ∃ trig,
      applyFilters { type := .int h2.event_type.enumVal } h2.filters = .ok trig ∧
      h2.workflow = some
        { name := "paperless-hooks-" ++ h2.name,
          order := ph.workflow_start_index, enabled := true,
          triggers := [trig],
          actions := [{
            type := 4,
            webhook := some {
              url := ph.webhook_base_url ++ "/" ++ h2.name,
              use_params := true, as_json := true, include_document := false,
              params := PlaceholderTemplates.model_dump {} } }] } ∧
      ((∀ v, ("type", v) ∉ h2.filters) →
        trig.type = .int h2.event_type.enumVal) := by
  obtain ⟨g1, g2, g3, g4, hg1, hg2, hg3, hg4, he1, he2, he3, he4, -, -, -, -⟩ :=
    init_ok_inv hinit
  have hall : r.hooks.allHandlers = g1.map Prod.fst ++ g2.map Prod.fst ++
      g3.map Prod.fst ++ g4.map Prod.fst := by
    unfold PaperlessHooks.allHandlers
    rw [he1, he2, he3, he4]
  intro h2 hmem
  rw [hall] at hmem
  rcases List.mem_append.mp hmem with hmem3 | hm4
  · rcases List.mem_append.mp hmem3 with hmem2 | hm3
    · rcases List.mem_append.mp hmem2 with hm1 | hm2
      · exact synthesized_handler_shape hg1 (hwf .CONSUMPTION_STARTED) h2 hm1
      · exact synthesized_handler_shape hg2 (hwf .DOCUMENT_ADDED) h2 hm2
    · exact synthesized_handler_shape hg3 (hwf .DOCUMENT_UPDATED) h2 hm3
  · exact synthesized_handler_shape hg4 (hwf .SCHEDULED) h2 hm4

/-- C6 witness: the shape facts applied to the concrete one-handler run. -/
theorem C6_synthesized_workflow_shape_witness :
    ∃ r, hooksOne.init envOk emptyStore = .ok r ∧
      ∀ h2 ∈ r.hooks.allHandlers, ∃ trig,
        applyFilters { type := .int h2.event_type.enumVal } h2.filters =
          .ok trig ∧
        h2.workflow = some
          { name := "paperless-hooks-" ++ h2.name,
            order := hooksOne.workflow_start_index, enabled := true,
            triggers := [trig],
            actions := [{
              type := 4,
              webhook := some {
                url := hooksOne.webhook_base_url ++ "/" ++ h2.name,
                use_params := true, as_json := true, include_document := false,
                params := PlaceholderTemplates.model_dump {} } }] } ∧
        ((∀ v, ("type", v) ∉ h2.filters) →
          trig.type = .int h2.event_type.enumVal) := by
  refine ⟨_, rfl, ?_⟩
  refine C6_synthesized_workflow_shape hooksOne envOk emptyStore _ ?_ rfl
  intro tt h hm
  cases tt
  · cases hm
  · cases hm with
    | head => rfl
    | tail _ hm2 => cases hm2
  · cases hm
  · cases hm

lemma map_snd_comp {α β γ : Type} (g : List (α × β)) (f : β → γ) :
    (g.map Prod.snd).map f = g.map (fun p => f p.2) := by
  rw [List.map_map]
  rfl

lemma toCreate_names_eq {ph : PaperlessHooks}
    {g1 g2 g3 g4 : List (EventHandler × Workflow)}
    (h1 : synthesizeList ph .CONSUMPTION_STARTED
      (ph.event_handlers .CONSUMPTION_STARTED) = .ok g1)
    (h2 : synthesizeList ph .DOCUMENT_ADDED
      (ph.event_handlers .DOCUMENT_ADDED) = .ok g2)
    (h3 : synthesizeList ph .DOCUMENT_UPDATED
      (ph.event_handlers .DOCUMENT_UPDATED) = .ok g3)
    (h4 : synthesizeList ph .SCHEDULED
      (ph.event_handlers .SCHEDULED) = .ok g4) :
    ((g1 ++ g2 ++ g3 ++ g4).map Prod.snd).map (fun w => w.name) =
      (ph.allHandlers.map (fun h => h.name)).map
        (fun s => "paperless-hooks-" ++ s) := by
  have w1 := (synthesizeList_maps h1).2.1
  have w2 := (synthesizeList_maps h2).2.1
  have w3 := (synthesizeList_maps h3).2.1
  have w4 := (synthesizeList_maps h4).2.1
  have hr : (ph.allHandlers.map (fun h => h.name)).map
      (fun s => "paperless-hooks-" ++ s) =
      ph.allHandlers.map (fun h => "paperless-hooks-" ++ h.name) := by
    rw [List.map_map]
    rfl
  rw [hr, map_snd_comp]
  unfold PaperlessHooks.allHandlers
  simp only [List.map_append]
  rw [w1, w2, w3, w4]

/-- C5 (confirmed, under the spec's own well-formedness constraint that
filter keys are recognized trigger fields): with at least one handler
registered, `init()` raises exactly when the single initial workflow listing
fails; when the listing succeeds, `init()` returns normally whatever the
per-workflow creation outcomes — an individual creation failure is caught and
logged and does not abort the others, and every handler whose creation call
succeeds (or whose name already exists remotely) ends with its workflow name
present remotely. -/
theorem C5_init_raises_iff_listing_fails (ph : PaperlessHooks) (env : ApiEnv)
    (store : RemoteStore) (hne : ph.allHandlers ≠ [])
    (hfs : ∀ h ∈ ph.allHandlers, ∀ kv ∈ h.filters, kv.1 ∈ triggerFieldNames) :
    ((∃ e, ph.init env store = .error e) ↔ env.listFails = true) ∧
    (env.listFails = false →
      ∃ r, ph.init env store = .ok r ∧
        ∀ h ∈ ph.allHandlers,
          env.createFails ("paperless-hooks-" ++ h.name) = false →
          "paperless-hooks-" ++ h.name ∈ storeNames r.store) := by
  constructor
  · constructor
    · rintro ⟨e, he⟩
      by_contra hl
      have hl2 : env.listFails = false := by simpa using hl
      obtain ⟨r, hr⟩ := init_ok_of_recognized ph env store hfs hl2
      rw [hr] at he
      cases he
    · intro hl
      exact ⟨_, init_error_of_listFails ph env store hfs hne hl⟩
  · intro hl
    obtain ⟨r, hr⟩ := init_ok_of_recognized ph env store hfs hl
    refine ⟨r, hr, ?_⟩
    intro h hm hcf
    obtain ⟨g1, g2, g3, g4, hg1, hg2, hg3, hg4, -, -, -, -, -, -, -, hcase⟩ :=
      init_ok_inv hr
    have hn : "paperless-hooks-" ++ h.name ∈
        ((g1 ++ g2 ++ g3 ++ g4).map Prod.snd).map (fun w => w.name) := by
      rw [toCreate_names_eq hg1 hg2 hg3 hg4]
      exact List.mem_map_of_mem _ (List.mem_map_of_mem _ hm)
    obtain ⟨w, hwmem, hwname⟩ := List.mem_map.mp hn
    rcases hcase with ⟨hemp, -, -, -⟩ | ⟨-, -, hstore, -, -⟩
    · rw [List.isEmpty_iff] at hemp
      rw [hemp] at hwmem
      cases hwmem
    · rw [hstore, ← hwname]
      refine registerLoop_mem_names env (storeNames store) store _
        (fun s hs => hs) w hwmem ?_
      rw [hwname]
      exact hcf

/-- C5 witness: at the one-handler fixture — a failing listing makes `init()`
raise, and a successful listing makes it return with `paperless-hooks-h`
present remotely. -/
theorem C5_init_raises_iff_listing_fails_witness :
    (∃ e, hooksOne.init envListDown emptyStore = .error e) ∧
    (∃ r, hooksOne.init envOk emptyStore = .ok r ∧
      "paperless-hooks-" ++ "h" ∈ storeNames r.store) := by
  have hne : hooksOne.allHandlers ≠ [] := List.cons_ne_nil _ _
  have hfs : ∀ h ∈ hooksOne.allHandlers,
      ∀ kv ∈ h.filters, kv.1 ∈ triggerFieldNames := by
    intro h hm kv hkv
    cases hm with
    | head => cases hkv
    | tail _ hm2 => cases hm2
  constructor
  · exact (C5_init_raises_iff_listing_fails hooksOne envListDown emptyStore
      hne hfs).1.mpr rfl
  · obtain ⟨r, hr, hall⟩ := (C5_init_raises_iff_listing_fails hooksOne envOk
      emptyStore hne hfs).2 rfl
    refine ⟨r, hr, ?_⟩
    exact hall
      { func := cbOk, event_type := .DOCUMENT_ADDED, index := 0, url := none,
        workflow := none, name := "h", filters := [] }
      (List.mem_cons_self _ _) rfl

/-- C2 (confirmed): with distinct handler names (the spec's data-model
requirement) and with the second `init()` running against the store produced
by a first `init()` all of whose creation calls succeeded (the remote store
"reflects the first call's creations"), the second call issues zero
workflow-creation calls, leaves the remote store exactly as it was, each
distinct workflow name is created at most once across the two runs, and
pre-existing remote workflows are never modified or removed by either run
(no update-in-place: reconciliation only appends). -/
theorem C2_init_idempotent (env1 env2 : ApiEnv) (store : RemoteStore)
    (ph : PaperlessHooks) (r1 r2 : InitResult)
    (hnodup : (ph.allHandlers.map (fun h => h.name)).Nodup)
    (hcreate1 : ∀ s, env1.createFails s = false)
    (h1 : ph.init env1 store = .ok r1)
    (h2 : r1.hooks.init env2 r1.store = .ok r2) :
    createdNames r2.api_calls = [] ∧
    r2.store = r1.store ∧
    (∀ nm : String,
      (createdNames r1.api_calls).count nm +
        (createdNames r2.api_calls).count nm ≤ 1) ∧
    (∀ w ∈ store.workflows, w ∈ r1.store.workflows ∧ w ∈ r2.store.workflows) := by
  have hpfxInj : Function.Injective (fun s => "paperless-hooks-" ++ s) :=
    fun a b hab => string_append_left_cancel hab
  obtain ⟨g1, g2, g3, g4, hg1, hg2, hg3, hg4, -, -, -, -, -, -, -, hcase1⟩ :=
    init_ok_inv h1
  obtain ⟨k1, k2, k3, k4, hk1, hk2, hk3, hk4, -, -, -, -, -, -, -, hcase2⟩ :=
    init_ok_inv h2
  have names1 := toCreate_names_eq hg1 hg2 hg3 hg4
  have names2 := toCreate_names_eq hk1 hk2 hk3 hk4
  have hpres := (init_hooks_handler_maps h1).1
  rw [hpres] at names2
  have hnames12 : ((k1 ++ k2 ++ k3 ++ k4).map Prod.snd).map (fun w => w.name) =
      ((g1 ++ g2 ++ g3 ++ g4).map Prod.snd).map (fun w => w.name) := by
    rw [names1, names2]
  have nodup1 : (((g1 ++ g2 ++ g3 ++ g4).map Prod.snd).map
      (fun w => w.name)).Nodup := by
    rw [names1]
    exact hnodup.map hpfxInj
  rcases hcase1 with ⟨hemp1, hst1, hcal1, -⟩ | ⟨-, -, hst1, -, hcal1⟩
  · -- no workflows were synthesized in run 1: the registry is empty
    rw [List.isEmpty_iff] at hemp1
    have hn2nil : ((k1 ++ k2 ++ k3 ++ k4).map Prod.snd).map
        (fun w => w.name) = [] := by
      rw [hnames12, hemp1]
      rfl
    have htc2nil : (k1 ++ k2 ++ k3 ++ k4).map Prod.snd = [] :=
      List.map_eq_nil_iff.mp hn2nil
    rcases hcase2 with ⟨-, hst2, hcal2, -⟩ | ⟨hemp2, -, -, -, -⟩
    · refine ⟨by rw [hcal2]; rfl, hst2, ?_, ?_⟩
      · intro nm
        rw [hcal1, hcal2]
        simp [createdNames]
      · intro w hw
        have hw1 : w ∈ r1.store.workflows := by rw [hst1]; exact hw
        exact ⟨hw1, by rw [hst2]; exact hw1⟩
    · rw [htc2nil] at hemp2
      cases hemp2
  · -- run 1 reconciled against the remote store
    have hmem1 : ∀ w ∈ (g1 ++ g2 ++ g3 ++ g4).map Prod.snd,
        w.name ∈ storeNames r1.store := by
      intro w hw
      rw [hst1]
      exact registerLoop_mem_names env1 (storeNames store) store _
        (fun s hs => hs) w hw (hcreate1 _)
    have hmem2 : ∀ w ∈ (k1 ++ k2 ++ k3 ++ k4).map Prod.snd,
        w.name ∈ storeNames r1.store := by
      intro w hw
      have : w.name ∈ ((k1 ++ k2 ++ k3 ++ k4).map Prod.snd).map
          (fun w => w.name) := List.mem_map_of_mem _ hw
      rw [hnames12] at this
      obtain ⟨w1, hw1, hname⟩ := List.mem_map.mp this
      rw [← hname]
      exact hmem1 w1 hw1
    have hcount1 : ∀ nm : String,
        (createdNames r1.api_calls).count nm ≤ 1 := by
      intro nm
      rw [hcal1, createdNames_init_calls, registerLoop_calls]
      have hsub : ((((g1 ++ g2 ++ g3 ++ g4).map Prod.snd).filter
          (fun w => !(w.name ∈ storeNames store : Bool))).map
            (fun w => w.name)).Sublist
          (((g1 ++ g2 ++ g3 ++ g4).map Prod.snd).map (fun w => w.name)) :=
        (List.filter_sublist _).map _
      exact List.nodup_iff_count_le_one.mp (nodup1.sublist hsub) nm
    have hnoop : registerLoop env2 (storeNames r1.store) r1.store
        ((k1 ++ k2 ++ k3 ++ k4).map Prod.snd) = (r1.store, [], []) :=
      registerLoop_noop env2 (storeNames r1.store) r1.store _ hmem2
    have hpresv : ∀ w ∈ store.workflows, w ∈ r1.store.workflows := by
      intro w hw
      obtain ⟨ext, hext⟩ := registerLoop_store_append env1 (storeNames store)
        store ((g1 ++ g2 ++ g3 ++ g4).map Prod.snd)
      rw [hst1, hext]
      exact List.mem_append_left _ hw
    rcases hcase2 with ⟨-, hst2, hcal2, -⟩ | ⟨-, -, hst2, -, hcal2⟩
    · refine ⟨by rw [hcal2]; rfl, hst2, ?_, ?_⟩
      · intro nm
        rw [hcal2]
        simpa [createdNames] using hcount1 nm
      · intro w hw
        have hw1 := hpresv w hw
        exact ⟨hw1, by rw [hst2]; exact hw1⟩
    · have hcal22 : r2.api_calls = [ApiCall.listWorkflows] := by
        rw [hcal2, hnoop]
        rfl
      have hst22 : r2.store = r1.store := by
        rw [hst2, hnoop]
      refine ⟨by rw [hcal22]; rfl, hst22, ?_, ?_⟩
      · intro nm
        rw [hcal22]
        simpa [createdNames] using hcount1 nm
      · intro w hw
        have hw1 := hpresv w hw
        exact ⟨hw1, by rw [hst22]; exact hw1⟩

/-- C2 witness: running `init()` twice on the one-handler fixture against an
initially empty store — the second run creates nothing and leaves the store
untouched. -/
theorem C2_init_idempotent_witness :
    ∃ r1 r2, hooksOne.init envOk emptyStore = .ok r1 ∧
      r1.hooks.init envOk r1.store = .ok r2 ∧
      createdNames r2.api_calls = [] ∧
      r2.store = r1.store := by
  refine ⟨_, _, rfl, rfl, ?_, ?_⟩
  · exact (C2_init_idempotent envOk envOk emptyStore hooksOne _ _ (by decide)
      (fun _ => rfl) rfl rfl).1
  · exact (C2_init_idempotent envOk envOk emptyStore hooksOne _ _ (by decide)
      (fun _ => rfl) rfl rfl).2.1
